import Mathlib

/-! GIP (Game Input Protocol) session: a shallow embedding of `gip.h` and `phase3_gip_test.c`.

The development follows the two source files:

* `gip.h`: the packed structs `GipHeader` and `GipInputPacket`, the command codes, the button
  masks, `print_buttons` and `gip_command_name`;
* `phase3_gip_test.c`: `signal_handler`, `send_ack`, `initialize_controller`, `input_loop` and the
  tail of `main` that runs the handshake and then the streaming loop.

Bytes (`uint8_t`) are `Fin 256`; `uint16_t` values are naturals below `65536`; `int16_t` values are
integers obtained by two's-complement decoding.  Multi-byte loads are little-endian, as on every
host the program targets.  The USB transport (`libusb_interrupt_transfer`) is an external
collaborator: its answers are given by a script, and every call made to it is recorded in a trace
together with everything the program prints.
-/

namespace Gip

/-! ## Bytes and loads from a byte buffer -/

/-- A `uint8_t`. -/
abbrev Byte := Fin 256

/-- Load of a `uint8_t` at byte offset `off` of a buffer. -/
def load_u8 (buf : List Byte) (off : Nat) : Byte := buf.getD off 0

/-- Load of a `uint16_t` (little-endian) at byte offset `off`. -/
def load_u16 (buf : List Byte) (off : Nat) : Nat :=
  (load_u8 buf off).val + 256 * (load_u8 buf (off + 1)).val

/-- Reinterpretation of a 16-bit pattern as an `int16_t` (two's complement). -/
def to_i16 (u : Nat) : Int := if u % 65536 < 32768 then (u % 65536 : Nat) else ((u % 65536 : Nat) : Int) - 65536

/-- Load of an `int16_t` (little-endian) at byte offset `off`. -/
def load_i16 (buf : List Byte) (off : Nat) : Int := to_i16 (load_u16 buf off)

/-! ## `gip.h`: packed structs

Under `#pragma pack(push, 1)` every member starts where the previous one ends, so an offset is the
previous offset plus the previous member's size. -/

/-- The struct `GipHeader` (four `uint8_t` members). -/
structure GipHeader where
  command : Byte
  options : Byte
  sequence : Byte
  length : Byte
deriving DecidableEq, Repr

namespace GipHeader

def off_command : Nat := 0
def off_options : Nat := off_command + 1
def off_sequence : Nat := off_options + 1
def off_length : Nat := off_sequence + 1
/-- The value of `sizeof(GipHeader)`. -/
def sizeof : Nat := off_length + 1

/-- View of a buffer through `(GipHeader *)buffer`. -/
def read (buf : List Byte) : GipHeader :=
  { command := load_u8 buf off_command
    options := load_u8 buf off_options
    sequence := load_u8 buf off_sequence
    length := load_u8 buf off_length }

/-- The object representation of a `GipHeader`: each member stored at its offset. -/
def write (h : GipHeader) : List Byte :=
  ((((List.replicate sizeof (0 : Byte)).set off_command h.command).set off_options h.options).set
    off_sequence h.sequence).set off_length h.length

end GipHeader

/-- The struct `GipInputPacket` (command 0x20). -/
structure GipInputPacket where
  header : GipHeader
  buttons : Nat
  left_trigger : Byte
  padding1 : Byte
  right_trigger : Byte
  padding2 : Byte
  left_stick_y : Int
  left_stick_x : Int
  right_stick_y : Int
  right_stick_x : Int
deriving DecidableEq, Repr

namespace GipInputPacket

def off_header : Nat := 0
def off_buttons : Nat := off_header + GipHeader.sizeof
def off_left_trigger : Nat := off_buttons + 2
def off_padding1 : Nat := off_left_trigger + 1
def off_right_trigger : Nat := off_padding1 + 1
def off_padding2 : Nat := off_right_trigger + 1
def off_left_stick_y : Nat := off_padding2 + 1
def off_left_stick_x : Nat := off_left_stick_y + 2
def off_right_stick_y : Nat := off_left_stick_x + 2
def off_right_stick_x : Nat := off_right_stick_y + 2
/-- The value of `sizeof(GipInputPacket)`. -/
def sizeof : Nat := off_right_stick_x + 2

/-- View of a buffer through `(GipInputPacket *)buffer`. -/
def read (buf : List Byte) : GipInputPacket :=
  { header := GipHeader.read (buf.drop off_header)
    buttons := load_u16 buf off_buttons
    left_trigger := load_u8 buf off_left_trigger
    padding1 := load_u8 buf off_padding1
    right_trigger := load_u8 buf off_right_trigger
    padding2 := load_u8 buf off_padding2
    left_stick_y := load_i16 buf off_left_stick_y
    left_stick_x := load_i16 buf off_left_stick_x
    right_stick_y := load_i16 buf off_right_stick_y
    right_stick_x := load_i16 buf off_right_stick_x }

end GipInputPacket

/-! ## `gip.h`: command codes and button masks -/

def GIP_CMD_ACKNOWLEDGE : Byte := 0x01
def GIP_CMD_ANNOUNCE : Byte := 0x02
def GIP_CMD_STATUS : Byte := 0x03
def GIP_CMD_IDENTIFY : Byte := 0x04
def GIP_CMD_POWER : Byte := 0x05
def GIP_CMD_AUTHENTICATE : Byte := 0x06
def GIP_CMD_GUIDE_BUTTON : Byte := 0x07
def GIP_CMD_RUMBLE : Byte := 0x09
def GIP_CMD_LED : Byte := 0x0A
def GIP_CMD_SERIAL_NUM : Byte := 0x1E
def GIP_CMD_INPUT : Byte := 0x20

def XBOX_BTN_SYNC : Nat := 0x0001
def XBOX_BTN_DUMMY1 : Nat := 0x0002
def XBOX_BTN_MENU : Nat := 0x0004
def XBOX_BTN_VIEW : Nat := 0x0008
def XBOX_BTN_A : Nat := 0x0010
def XBOX_BTN_B : Nat := 0x0020
def XBOX_BTN_X : Nat := 0x0040
def XBOX_BTN_Y : Nat := 0x0080
def XBOX_BTN_DPAD_UP : Nat := 0x0100
def XBOX_BTN_DPAD_DOWN : Nat := 0x0200
def XBOX_BTN_DPAD_LEFT : Nat := 0x0400
def XBOX_BTN_DPAD_RIGHT : Nat := 0x0800
def XBOX_BTN_LB : Nat := 0x1000
def XBOX_BTN_RB : Nat := 0x2000
def XBOX_BTN_LS : Nat := 0x4000
def XBOX_BTN_RS : Nat := 0x8000

/-- One statement `if (buttons & mask) printf(name);` of `print_buttons`. -/
def print_if (buttons mask : Nat) (name : String) : List String :=
  if buttons &&& mask ≠ 0 then [name] else []

/-- The function `print_buttons`: the strings it prints, in order. -/
def print_buttons (buttons : Nat) : List String :=
  print_if buttons XBOX_BTN_A "A " ++
  print_if buttons XBOX_BTN_B "B " ++
  print_if buttons XBOX_BTN_X "X " ++
  print_if buttons XBOX_BTN_Y "Y " ++
  print_if buttons XBOX_BTN_LB "LB " ++
  print_if buttons XBOX_BTN_RB "RB " ++
  print_if buttons XBOX_BTN_LS "LS " ++
  print_if buttons XBOX_BTN_RS "RS " ++
  print_if buttons XBOX_BTN_MENU "MENU " ++
  print_if buttons XBOX_BTN_VIEW "VIEW " ++
  print_if buttons XBOX_BTN_DPAD_UP "UP " ++
  print_if buttons XBOX_BTN_DPAD_DOWN "DOWN " ++
  print_if buttons XBOX_BTN_DPAD_LEFT "LEFT " ++
  print_if buttons XBOX_BTN_DPAD_RIGHT "RIGHT "

/-- The function `gip_command_name`: a `switch` over the command codes. -/
def gip_command_name (command : Byte) : String :=
  if command = GIP_CMD_ACKNOWLEDGE then "Acknowledge"
  else if command = GIP_CMD_ANNOUNCE then "Announce"
  else if command = GIP_CMD_STATUS then "Status"
  else if command = GIP_CMD_IDENTIFY then "Identify"
  else if command = GIP_CMD_POWER then "Power"
  else if command = GIP_CMD_AUTHENTICATE then "Authenticate"
  else if command = GIP_CMD_GUIDE_BUTTON then "Guide Button"
  else if command = GIP_CMD_RUMBLE then "Rumble"
  else if command = GIP_CMD_LED then "LED"
  else if command = GIP_CMD_SERIAL_NUM then "Serial Number"
  else if command = GIP_CMD_INPUT then "Input"
  else "Unknown"

/-! ## The transport and the observable trace

`libusb_interrupt_transfer` belongs to libusb, not to this program.  An IN transfer is answered by
the transport script: a return code, the bytes the device delivered, and whether a SIGINT/SIGTERM
was handled while the call was blocked.  An OUT transfer is answered by a return code. -/

def LIBUSB_SUCCESS : Int := 0
def LIBUSB_ERROR_NO_DEVICE : Int := -4
def LIBUSB_ERROR_TIMEOUT : Int := -7

/-- The answer of the transport to one IN transfer. -/
structure InAnswer where
  result : Int
  data : List Byte
  signal : Bool
deriving DecidableEq, Repr

/-- The scripted transport: the answer to the `i`-th IN transfer and to the `i`-th OUT transfer. -/
structure Transport where
  recv : Nat → InAnswer
  send : Nat → Int

/-- What the program prints; one constructor per `printf` that carries information. Blank lines
and the padding `printf("%-40s", "")` are left out. -/
inductive Msg
  | shutting_down
  | ack_sent (sequence : Byte)
  | ack_failed (result : Int)
  | init_banner
  | init_reading (n : Nat)
  | init_received (name : String) (command sequence length : Byte)
  | init_data (bytes : List Byte) (more : Bool)
  | init_timeout
  | init_error (result : Int)
  | init_complete
  | power_sending
  | power_sent
  | power_failed (result : Int)
  | power_waiting
  | loop_banner
  | input_state (count : Nat) (first second : List String) (left_trigger right_trigger : Byte)
      (left_stick_x left_stick_y right_stick_x right_stick_y : Int)
  | guide_button
  | other_packet (name : String) (command : Byte)
  | read_error (result : Int)
  | disconnected
deriving DecidableEq, Repr

/-- An observable step of the program. -/
inductive Event
  | transfer_in (endpoint : Byte) (length : Nat) (timeout : Nat)
  | transfer_out (endpoint : Byte) (data : List Byte) (timeout : Nat)
  | usleep (usec : Nat)
  | printed (msg : Msg)
deriving DecidableEq, Repr

/-- Program state shared by all functions: the global `running`, the position in the transport
script, and the trace of everything done so far. -/
structure State where
  running : Bool
  recvs : Nat
  sends : Nat
  trace : List Event
deriving DecidableEq, Repr

/-- The state at program start: `static int running = 1;`, nothing done yet. -/
def State.start : State := { running := true, recvs := 0, sends := 0, trace := [] }

/-- A call of `printf`. -/
def State.print (st : State) (m : Msg) : State := { st with trace := st.trace ++ [.printed m] }

/-- The function `signal_handler`. -/
def signal_handler (st : State) : State := { st with running := false }.print .shutting_down

/-- What an IN transfer gives back to its caller. -/
structure InResult where
  result : Int
  transferred : Nat
  buffer : List Byte
  st : State

/-- A call `libusb_interrupt_transfer(handle, in_endpoint, buffer, length, &transferred, timeout)`:
the delivered bytes (at most `length`) overwrite the start of `buffer`. -/
def interrupt_in (t : Transport) (endpoint : Byte) (buffer : List Byte) (length timeout : Nat)
    (st : State) : InResult :=
  let a := t.recv st.recvs
  let got := a.data.take length
  let st1 : State := { st with recvs := st.recvs + 1, trace := st.trace ++ [.transfer_in endpoint length timeout] }
  { result := a.result
    transferred := got.length
    buffer := got ++ buffer.drop got.length
    st := if a.signal then signal_handler st1 else st1 }

/-- A call `libusb_interrupt_transfer(handle, out_endpoint, data, sizeof(data), &transferred, timeout)`. -/
def interrupt_out (t : Transport) (endpoint : Byte) (data : List Byte) (timeout : Nat)
    (st : State) : Int × State :=
  (t.send st.sends,
   { st with sends := st.sends + 1, trace := st.trace ++ [.transfer_out endpoint data timeout] })

/-! ## `phase3_gip_test.c` -/

/-- The array `ack_packet` of `send_ack`. -/
def ack_packet (sequence : Byte) : List Byte :=
  [GIP_CMD_ACKNOWLEDGE, 0x20, sequence, 0x09, 0x00, 0x00, 0x00, 0x00, 0x00, 0x00, 0x00, 0x00, 0x00]

/-- The function `send_ack`. -/
def send_ack (t : Transport) (out_endpoint : Byte) (sequence : Byte) (st : State) : Int × State :=
  let r := interrupt_out t out_endpoint (ack_packet sequence) 1000 st
  if r.1 = 0 then (0, r.2.print (.ack_sent sequence))
  else (-1, r.2.print (.ack_failed r.1))

/-- The array `power_on` of `initialize_controller`. -/
def power_on : List Byte := [GIP_CMD_POWER, 0x20, 0x00, 0x01, 0x00]

/-- Result of one pass through the body of a loop: whether `break` was taken, and the locals. -/
structure Pass where
  brk : Bool
  buffer : List Byte
  input_count : Nat
  st : State

/-- The body of the `for` loop of `initialize_controller` (`input_count` is not used here). -/
def init_body (t : Transport) (in_endpoint out_endpoint : Byte) (attempt : Nat)
    (buffer : List Byte) (st : State) : Pass :=
  let r := interrupt_in t in_endpoint buffer 64 2000 (st.print (.init_reading (attempt + 1)))
  if r.result = 0 ∧ r.transferred ≥ GipHeader.sizeof then
    let header := GipHeader.read r.buffer
    let st1 := r.st.print
      (.init_received (gip_command_name header.command) header.command header.sequence header.length)
    let st2 := st1.print (.init_data (r.buffer.take (min r.transferred 32)) (decide (r.transferred > 32)))
    let st3 := if header.command = GIP_CMD_ANNOUNCE then (send_ack t out_endpoint header.sequence st2).2 else st2
    { brk := false, buffer := r.buffer, input_count := 0, st := st3 }
  else if r.result = LIBUSB_ERROR_TIMEOUT then
    { brk := true, buffer := r.buffer, input_count := 0, st := r.st.print .init_timeout }
  else
    { brk := false, buffer := r.buffer, input_count := 0, st := r.st.print (.init_error r.result) }

/-- The loop `for (int attempt = 0; attempt < 5; attempt++)` of `initialize_controller`, started at
`attempt`; `fuel` bounds the number of passes (5 is always enough). -/
def init_loop (t : Transport) (in_endpoint out_endpoint : Byte) :
    Nat → Nat → List Byte → State → State
  | 0, _, _, st => st
  | fuel + 1, attempt, buffer, st =>
    if attempt < 5 then
      let p := init_body t in_endpoint out_endpoint attempt buffer st
      if p.brk then p.st else init_loop t in_endpoint out_endpoint fuel (attempt + 1) p.buffer p.st
    else st

/-- The function `initialize_controller`; `buffer` is the initial (indeterminate) content of its
local array. It gives back its return value and the new state. -/
def initialize_controller (t : Transport) (in_endpoint out_endpoint : Byte) (buffer : List Byte)
    (st : State) : Int × State :=
  let st1 := init_loop t in_endpoint out_endpoint 5 0 buffer (st.print .init_banner)
  let st2 := (st1.print .init_complete).print .power_sending
  let r := interrupt_out t out_endpoint power_on 1000 st2
  let st3 := if r.1 = 0 then r.2.print .power_sent else r.2.print (.power_failed r.1)
  let st4 := st3.print .power_waiting
  (0, { st4 with trace := st4.trace ++ [.usleep 500000] })

/-- The body of the `while` loop of `input_loop`. -/
def input_body (t : Transport) (in_endpoint : Byte) (buffer : List Byte) (input_count : Nat)
    (st : State) : Pass :=
  let r := interrupt_in t in_endpoint buffer 64 100 st
  if r.result = 0 ∧ r.transferred ≥ GipHeader.sizeof then
    let header := GipHeader.read r.buffer
    if header.command = GIP_CMD_INPUT ∧ r.transferred ≥ GipInputPacket.sizeof then
      let input := GipInputPacket.read r.buffer
      { brk := false, buffer := r.buffer, input_count := input_count + 1,
        st := r.st.print (.input_state (input_count + 1)
          (if input.buttons ≠ 0 then print_buttons input.buttons else ["none "])
          (print_buttons input.buttons) input.left_trigger input.right_trigger
          input.left_stick_x input.left_stick_y input.right_stick_x input.right_stick_y) }
    else if header.command = GIP_CMD_GUIDE_BUTTON then
      { brk := false, buffer := r.buffer, input_count := input_count, st := r.st.print .guide_button }
    else
      { brk := false, buffer := r.buffer, input_count := input_count,
        st := r.st.print (.other_packet (gip_command_name header.command) header.command) }
  else if r.result ≠ LIBUSB_ERROR_TIMEOUT then
    if r.result = LIBUSB_ERROR_NO_DEVICE then
      { brk := true, buffer := r.buffer, input_count := input_count,
        st := (r.st.print (.read_error r.result)).print .disconnected }
    else
      { brk := false, buffer := r.buffer, input_count := input_count,
        st := r.st.print (.read_error r.result) }
  else
    { brk := false, buffer := r.buffer, input_count := input_count, st := r.st }

/-- State of the `while (running)` loop of `input_loop`: `exited` tells whether control has left the
loop. -/
structure Loop where
  exited : Bool
  buffer : List Byte
  input_count : Nat
  st : State

/-- The loop `while (running) { ... }` of `input_loop`, run for at most `fuel` passes. The loop has
no bound of its own: when the fuel runs out the loop is still running (`exited = false`). -/
def input_while (t : Transport) (in_endpoint : Byte) : Nat → List Byte → Nat → State → Loop
  | 0, buffer, input_count, st =>
    { exited := !st.running, buffer := buffer, input_count := input_count, st := st }
  | fuel + 1, buffer, input_count, st =>
    if st.running then
      let p := input_body t in_endpoint buffer input_count st
      if p.brk then { exited := true, buffer := p.buffer, input_count := p.input_count, st := p.st }
      else input_while t in_endpoint fuel p.buffer p.input_count p.st
    else { exited := true, buffer := buffer, input_count := input_count, st := st }

/-- The function `input_loop`, its `while` loop run for at most `fuel` passes; `buffer` is the
initial content of its local array. -/
def input_loop (t : Transport) (in_endpoint : Byte) (buffer : List Byte) (fuel : Nat)
    (st : State) : Loop :=
  input_while t in_endpoint fuel buffer 0 (st.print .loop_banner)

/-- The part of `main` after the endpoints are found: the handshake, then the input loop. -/
def main_session (t : Transport) (in_endpoint out_endpoint : Byte) (buffer1 buffer2 : List Byte)
    (fuel : Nat) (st : State) : Loop :=
  input_loop t in_endpoint buffer2 fuel (initialize_controller t in_endpoint out_endpoint buffer1 st).2

/-! ## Projections of the trace -/

/-- The calls made to the transport, in order. -/
def transport_calls (tr : List Event) : List Event :=
  tr.filter fun e => match e with
    | .transfer_in _ _ _ => true
    | .transfer_out _ _ _ => true
    | _ => false

/-- The frames handed to the transport for sending, in order. -/
def sent_frames (tr : List Event) : List (List Byte) :=
  tr.filterMap fun e => match e with
    | .transfer_out _ data _ => some data
    | _ => none

/-- The number of IN transfers made. -/
def receive_count (tr : List Event) : Nat :=
  (tr.filter fun e => match e with
    | .transfer_in _ _ _ => true
    | _ => false).length

/-- The messages printed, in order. -/
def printed (tr : List Event) : List Msg :=
  tr.filterMap fun e => match e with
    | .printed m => some m
    | _ => none

/-- The events the streaming loop emits for a received frame: an input snapshot, a guide-button
event, or an unhandled-frame diagnostic. -/
def frame_events (tr : List Event) : List Msg :=
  (printed tr).filter fun m => match m with
    | .input_state _ _ _ _ _ _ _ _ _ => true
    | .guide_button => true
    | .other_packet _ _ => true
    | _ => false

/-- The headers decoded and reported during the handshake. -/
def init_headers (tr : List Event) : List Msg :=
  (printed tr).filter fun m => match m with
    | .init_received _ _ _ _ => true
    | _ => false

/-- A scripted transport: Announce (sequence 3), then only timeouts; every send succeeds. -/
def script_announce3 : Transport :=
  { recv := fun i => if i = 0 then ⟨0, [0x02, 0x20, 0x03, 0x00], false⟩ else ⟨LIBUSB_ERROR_TIMEOUT, [], false⟩
    send := fun _ => 0 }

/-- A scripted transport whose every receive reports that the device is gone. -/
def script_gone : Transport :=
  { recv := fun _ => ⟨LIBUSB_ERROR_NO_DEVICE, [], false⟩, send := fun _ => 0 }

/-- The decoded control values of an input packet: buttons, triggers and sticks (no header, no
padding). -/
def controls (p : GipInputPacket) : Nat × Byte × Byte × Int × Int × Int × Int :=
  (p.buttons, p.left_trigger, p.right_trigger, p.left_stick_x, p.left_stick_y, p.right_stick_x,
    p.right_stick_y)

/-- The signed 16-bit value whose little-endian bytes are `lo`, `hi`. -/
def signed16_le (lo hi : Byte) : Int :=
  if hi.val < 128 then (lo.val : Int) + 256 * hi.val else (lo.val : Int) + 256 * hi.val - 65536

/-- The 18-byte fixture frame of the offset regression scenario. -/
def fixture_frame : List Byte :=
  [0x04, 0x5e, 0x00, 0x00, 0x10, 0x00, 0x7F, 0x00, 0x80, 0x00, 0xFF, 0x7F, 0xFF, 0x7F, 0xFF, 0x7F,
    0xFF, 0x7F]

/-- A 20-byte received buffer (an Input frame followed by two more bytes). -/
def witness_buffer : List Byte :=
  [0x20, 0x00, 0x01, 0x0e, 0x10, 0x20, 0x7F, 0xAA, 0x80, 0xBB, 0x00, 0x80, 0xFF, 0x7F, 0x01, 0x00,
    0xFF, 0xFF, 0xCC, 0xDD]

/-- The eleven command codes defined in `gip.h`, in the order of the header. -/
def known_commands : List Byte :=
  [GIP_CMD_ACKNOWLEDGE, GIP_CMD_ANNOUNCE, GIP_CMD_STATUS, GIP_CMD_IDENTIFY, GIP_CMD_POWER,
    GIP_CMD_AUTHENTICATE, GIP_CMD_GUIDE_BUTTON, GIP_CMD_RUMBLE, GIP_CMD_LED, GIP_CMD_SERIAL_NUM,
    GIP_CMD_INPUT]

/-- A scripted transport whose first receive completes with only the 3 bytes 02 20 05 (the start
of an Announce frame); afterwards only timeouts. -/
def script_short : Transport :=
  { recv := fun i => if i = 0 then ⟨0, [0x02, 0x20, 0x05], false⟩ else ⟨LIBUSB_ERROR_TIMEOUT, [], false⟩
    send := fun _ => 0 }

/-- Whether an answer to an IN transfer is a successfully received frame of at least 4 bytes whose
first byte is the Announce command. -/
def is_announce (a : InAnswer) : Bool :=
  decide (a.result = 0 ∧ 4 ≤ a.data.length ∧ a.data.getD 0 0 = GIP_CMD_ANNOUNCE)

/-- The events a handled signal adds to the trace. -/
def signal_events (signal : Bool) : List Event :=
  if signal then [.printed .shutting_down] else []


/-- The line `input_loop` prints for a decoded input packet, numbered `count`. -/
def snapshot (count : Nat) (input : GipInputPacket) : Msg :=
  .input_state count (if input.buttons ≠ 0 then print_buttons input.buttons else ["none "])
    (print_buttons input.buttons) input.left_trigger input.right_trigger input.left_stick_x
    input.left_stick_y input.right_stick_x input.right_stick_y

/-- The streaming classification of a received frame, as the claim words it: `n` is the number of
bytes transferred, `data` the bytes delivered, `input_count` the snapshots printed so far. An input
snapshot when byte 0 is 0x20 and `n ≥ 18`; otherwise a guide-button event when byte 0 is 0x07;
otherwise an unhandled-frame diagnostic carrying the command byte. -/
def classified_event (input_count n : Nat) (data : List Byte) : Msg :=
  if data.getD 0 0 = 0x20 ∧ 18 ≤ n then snapshot (input_count + 1) (GipInputPacket.read data)
  else if data.getD 0 0 = 0x07 then .guide_button
  else .other_packet (gip_command_name (data.getD 0 0)) (data.getD 0 0)

/-- Whether a printed message is an input snapshot. -/
def is_snapshot : Msg → Bool
  | .input_state _ _ _ _ _ _ _ _ _ => true
  | _ => false

/-- A scripted transport whose first receive delivers the 6 bytes 20 00 01 0e 10 00: an Input
frame whose header announces 14 payload bytes of which only 2 arrived. -/
def script_input_cut : Transport :=
  { recv := fun _ => ⟨0, [0x20, 0x00, 0x01, 0x0e, 0x10, 0x00], false⟩, send := fun _ => 0 }


/-- The Acknowledge send of a handshake pass, as the answer to its receive determines it. -/
def announce_reply (o : Byte) (a : InAnswer) : List Event :=
  if is_announce a then [.transfer_out o (ack_packet (a.data.getD 2 0)) 1000] else []

/-- The transport calls of the handshake loop as the script determines them, with `n` attempts
left and the next answer at index `idx` of the script. -/
def handshake_calls (t : Transport) (i o : Byte) : Nat → Nat → List Event
  | 0, _ => []
  | n + 1, idx =>
    .transfer_in i 64 2000 :: (announce_reply o (t.recv idx) ++
      (if (t.recv idx).result = LIBUSB_ERROR_TIMEOUT then [] else handshake_calls t i o n (idx + 1)))

/-- The answers to the first `n` receives made from index `idx` of the script on. -/
def first_answers (t : Transport) (idx n : Nat) : List InAnswer :=
  (List.range n).map (fun j => t.recv (idx + j))

/-- The answers that come before the first timeout. -/
def before_timeout (l : List InAnswer) : List InAnswer :=
  l.takeWhile (fun a => decide (a.result ≠ LIBUSB_ERROR_TIMEOUT))

/-- The Acknowledge frames the claim expects for a list of answers: one per Announce frame of at
least 4 bytes, in order, carrying byte 2 of that frame as its sequence. -/
def announce_acks (l : List InAnswer) : List (List Byte) :=
  (l.filter is_announce).map (fun a => ack_packet (a.data.getD 2 0))

/-- The Acknowledge frames the claim expects from a handshake that starts at index `idx` of the
script: those for the Announce frames among the first 5 answers and before the first timeout. -/
def expected_acks (t : Transport) (idx : Nat) : List (List Byte) :=
  announce_acks (before_timeout (first_answers t idx 5))


/-! ## `hid_descriptor.h` -/

/-- The array `gamepad_hid_descriptor`, one source line per row. -/
def gamepad_hid_descriptor : List Byte :=
  [ 0x05, 0x01,
    0x09, 0x05,
    0xA1, 0x01,
    0x05, 0x09,
    0x19, 0x01,
    0x29, 0x10,
    0x15, 0x00,
    0x25, 0x01,
    0x75, 0x01,
    0x95, 0x10,
    0x81, 0x02,
    0x05, 0x01,
    0x09, 0x32,
    0x15, 0x00,
    0x26, 0xFF, 0x00,
    0x75, 0x08,
    0x95, 0x01,
    0x81, 0x02,
    0x09, 0x35,
    0x15, 0x00,
    0x26, 0xFF, 0x00,
    0x75, 0x08,
    0x95, 0x01,
    0x81, 0x02,
    0x09, 0x30,
    0x09, 0x31,
    0x16, 0x00, 0x80,
    0x26, 0xFF, 0x7F,
    0x75, 0x10,
    0x95, 0x02,
    0x81, 0x02,
    0x09, 0x33,
    0x09, 0x34,
    0x16, 0x00, 0x80,
    0x26, 0xFF, 0x7F,
    0x75, 0x10,
    0x95, 0x02,
    0x81, 0x02,
    0xC0 ]

/-- The value of `GAMEPAD_HID_DESCRIPTOR_SIZE`. -/
def GAMEPAD_HID_DESCRIPTOR_SIZE : Nat := gamepad_hid_descriptor.length

/-- The struct `GamepadReport` (packed). -/
structure GamepadReport where
  buttons : Nat
  left_trigger : Byte
  right_trigger : Byte
  left_stick_x : Int
  left_stick_y : Int
  right_stick_x : Int
  right_stick_y : Int
deriving DecidableEq, Repr

/-- The integer types of the members of `GamepadReport`. -/
inductive CType
  | uint8
  | uint16
  | int16
deriving DecidableEq, Repr

/-- Width of a type in bits. -/
def CType.bits : CType → Nat
  | .uint8 => 8
  | .uint16 => 16
  | .int16 => 16

/-- Least value of a type. -/
def CType.least : CType → Int
  | .uint8 => 0
  | .uint16 => 0
  | .int16 => -32768

/-- Greatest value of a type. -/
def CType.greatest : CType → Int
  | .uint8 => 255
  | .uint16 => 65535
  | .int16 => 32767

namespace GamepadReport

/-- The members of the struct in declaration order, with their types. -/
def members : List (String × CType) :=
  [("buttons", .uint16), ("left_trigger", .uint8), ("right_trigger", .uint8),
    ("left_stick_x", .int16), ("left_stick_y", .int16), ("right_stick_x", .int16),
    ("right_stick_y", .int16)]

/-- Bit offsets of the members of a packed struct: each member starts where the previous ends. -/
def bit_offsets : Nat → List (String × CType) → List Nat
  | _, [] => []
  | off, m :: rest => off :: bit_offsets (off + m.2.bits) rest

/-- The value of `sizeof(GamepadReport)`: the packed members take their widths and nothing more. -/
def sizeof : Nat := (members.map (fun m => m.2.bits)).sum / 8

end GamepadReport

/-! ### HID report descriptors (USB HID 1.11, section 6.2.2)

A short item is one byte holding bSize (bits 0-1: 0, 1, 2 or 4 data bytes), bType (bits 2-3:
0 Main, 1 Global, 2 Local) and bTag (bits 4-7), followed by its data bytes, little-endian.
The byte 0xFE starts a long item, which is not a short item. -/

/-- A short item of a report descriptor. -/
structure HidItem where
  type : Nat
  tag : Nat
  data : List Byte
deriving DecidableEq, Repr

/-- Number of data bytes announced by the first byte of a short item. -/
def hid_data_size (b : Byte) : Nat :=
  if b.val % 4 = 3 then 4 else b.val % 4

/-- Parse of a byte sequence into short items; `none` when an item is cut off, when a long item is
met, or when the fuel runs out (the length of the input is always enough fuel). -/
def parse_short_items : Nat → List Byte → Option (List HidItem)
  | _, [] => some []
  | 0, _ :: _ => none
  | fuel + 1, b :: rest =>
    if b = 0xFE then none
    else if rest.length < hid_data_size b then none
    else
      match parse_short_items fuel (rest.drop (hid_data_size b)) with
      | none => none
      | some items =>
        some ({ type := b.val / 4 % 4, tag := b.val / 16, data := rest.take (hid_data_size b) } ::
          items)

/-- Parse of a whole report descriptor. -/
def parse_descriptor (bytes : List Byte) : Option (List HidItem) :=
  parse_short_items bytes.length bytes

/-- Unsigned little-endian value of item data. -/
def unsigned_value (data : List Byte) : Nat :=
  data.foldr (fun b acc => b.val + 256 * acc) 0

/-- Signed (two's complement) little-endian value of item data. -/
def signed_value (data : List Byte) : Int :=
  if 2 * unsigned_value data < 256 ^ data.length then (unsigned_value data : Int)
  else (unsigned_value data : Int) - (256 ^ data.length : Nat)

/-- The item state table: the Global items in force and the Local items since the last Main
item. -/
structure ItemState where
  usage_page : Nat
  logical_minimum : Int
  logical_maximum : Int
  report_size : Nat
  report_count : Nat
  usages : List Nat
  usage_minimum : Option Nat
  usage_maximum : Option Nat
deriving DecidableEq, Repr

/-- What one Input item declares: `report_count` fields of `report_size` bits each. -/
structure ReportField where
  usage_page : Nat
  usages : List Nat
  usage_minimum : Option Nat
  usage_maximum : Option Nat
  logical_minimum : Int
  logical_maximum : Int
  report_size : Nat
  report_count : Nat
  flags : Nat
deriving DecidableEq, Repr

/-- The empty item state table. -/
def ItemState.empty : ItemState :=
  { usage_page := 0, logical_minimum := 0, logical_maximum := 0, report_size := 0,
    report_count := 0, usages := [], usage_minimum := none, usage_maximum := none }

/-- The Local items are dropped after each Main item. -/
def ItemState.clear_locals (s : ItemState) : ItemState :=
  { s with usages := [], usage_minimum := none, usage_maximum := none }

/-- The effect of one item on the item state table. Global items: tag 0 Usage Page, 1 Logical
Minimum, 2 Logical Maximum, 7 Report Size, 9 Report Count. Local items: tag 0 Usage, 1 Usage
Minimum, 2 Usage Maximum. Every Main item clears the Local items. -/
def ItemState.step (s : ItemState) (it : HidItem) : ItemState :=
  if it.type = 1 then
    if it.tag = 0 then { s with usage_page := unsigned_value it.data }
    else if it.tag = 1 then { s with logical_minimum := signed_value it.data }
    else if it.tag = 2 then { s with logical_maximum := signed_value it.data }
    else if it.tag = 7 then { s with report_size := unsigned_value it.data }
    else if it.tag = 9 then { s with report_count := unsigned_value it.data }
    else s
  else if it.type = 2 then
    if it.tag = 0 then { s with usages := s.usages ++ [unsigned_value it.data] }
    else if it.tag = 1 then { s with usage_minimum := some (unsigned_value it.data) }
    else if it.tag = 2 then { s with usage_maximum := some (unsigned_value it.data) }
    else s
  else s.clear_locals

/-- Whether an item is the Main item Input (tag 8). -/
def HidItem.is_input (it : HidItem) : Bool := it.type = 0 ∧ it.tag = 8

/-- Whether an item is the Main item Collection (tag 10). -/
def HidItem.is_collection (it : HidItem) : Bool := it.type = 0 ∧ it.tag = 10

/-- Whether an item is the Main item End Collection (tag 12). -/
def HidItem.is_end_collection (it : HidItem) : Bool := it.type = 0 ∧ it.tag = 12

/-- The declarations of the Input items of an item sequence, in order. -/
def input_fields : ItemState → List HidItem → List ReportField
  | _, [] => []
  | s, it :: rest =>
    if it.is_input then
      { usage_page := s.usage_page, usages := s.usages, usage_minimum := s.usage_minimum,
        usage_maximum := s.usage_maximum, logical_minimum := s.logical_minimum,
        logical_maximum := s.logical_maximum, report_size := s.report_size,
        report_count := s.report_count, flags := unsigned_value it.data } ::
        input_fields (s.step it) rest
    else input_fields (s.step it) rest

/-- Nesting of collections: the depth after the items, `none` if an End Collection has no open
Collection. -/
def collection_depth : Nat → List HidItem → Option Nat
  | d, [] => some d
  | d, it :: rest =>
    if it.is_collection then collection_depth (d + 1) rest
    else if it.is_end_collection then
      match d with
      | 0 => none
      | d + 1 => collection_depth d rest
    else collection_depth d rest

/-- The widths in bits of the fields of a report, one entry per field, in order. -/
def field_widths (fields : List ReportField) : List Nat :=
  fields.flatMap (fun f => List.replicate f.report_count f.report_size)

/-- The number of bits of a report. -/
def report_bits (fields : List ReportField) : Nat :=
  (fields.map (fun f => f.report_size * f.report_count)).sum

/-- The Input declarations of `gamepad_hid_descriptor` (empty when it does not parse). -/
def gamepad_fields : List ReportField :=
  input_fields ItemState.empty ((parse_descriptor gamepad_hid_descriptor).getD [])


/-- The short items of `gamepad_hid_descriptor` (empty when it does not parse). -/
def gamepad_items : List HidItem := (parse_descriptor gamepad_hid_descriptor).getD []

/-! ## Theorems -/

theorem to_i16_le (lo hi : Byte) : to_i16 (lo.val + 256 * hi.val) = signed16_le lo hi := by
  have h1 := lo.isLt
  have h2 := hi.isLt
  unfold to_i16 signed16_le
  have h3 : (lo.val + 256 * hi.val) % 65536 = lo.val + 256 * hi.val := Nat.mod_eq_of_lt (by omega)
  rw [h3]
  split_ifs <;> omega

theorem load_u8_eq (buf : List Byte) (i : Nat) (h : i < buf.length) : load_u8 buf i = buf[i] := by
  unfold load_u8
  exact List.getD_eq_getElem buf 0 h

/-- The control values read through `GipInputPacket`, in terms of the bytes at offsets 4 to 17. -/
theorem controls_read (buf : List Byte) (h : 18 ≤ buf.length) :
    controls (GipInputPacket.read buf) =
      (buf[4].val + 256 * buf[5].val, buf[6], buf[8], signed16_le buf[12] buf[13],
        signed16_le buf[10] buf[11], signed16_le buf[16] buf[17], signed16_le buf[14] buf[15]) := by
  simp only [controls, GipInputPacket.read, load_i16, load_u16, GipInputPacket.off_buttons,
    GipInputPacket.off_header, GipHeader.sizeof, GipHeader.off_length, GipHeader.off_sequence,
    GipHeader.off_options, GipHeader.off_command, GipInputPacket.off_left_trigger,
    GipInputPacket.off_padding1, GipInputPacket.off_right_trigger, GipInputPacket.off_padding2,
    GipInputPacket.off_left_stick_y, GipInputPacket.off_left_stick_x,
    GipInputPacket.off_right_stick_y, GipInputPacket.off_right_stick_x, Nat.reduceAdd]
  rw [load_u8_eq buf 4 (by omega), load_u8_eq buf 5 (by omega), load_u8_eq buf 6 (by omega),
    load_u8_eq buf 8 (by omega), load_u8_eq buf 10 (by omega), load_u8_eq buf 11 (by omega),
    load_u8_eq buf 12 (by omega), load_u8_eq buf 13 (by omega), load_u8_eq buf 14 (by omega),
    load_u8_eq buf 15 (by omega), load_u8_eq buf 16 (by omega), load_u8_eq buf 17 (by omega)]
  simp only [to_i16_le]

/-- Two buffers that agree at the offsets of the control members decode to the same controls. -/
theorem controls_agree (buf buf2 : List Byte) (h : 18 ≤ buf.length) (h2 : 18 ≤ buf2.length)
    (hagree : ∀ i, i ∈ [4, 5, 6, 8, 10, 11, 12, 13, 14, 15, 16, 17] →
      buf2.getD i 0 = buf.getD i 0) :
    controls (GipInputPacket.read buf2) = controls (GipInputPacket.read buf) := by
  have key : ∀ i, (hi : i < 18) → i ∈ [4, 5, 6, 8, 10, 11, 12, 13, 14, 15, 16, 17] →
      buf2[i] = buf[i] := by
    intro i hi hm
    have := hagree i hm
    rwa [List.getD_eq_getElem buf2 0 (by omega), List.getD_eq_getElem buf 0 (by omega)] at this
  have k4 := key 4 (by omega) (by simp)
  have k5 := key 5 (by omega) (by simp)
  have k6 := key 6 (by omega) (by simp)
  have k8 := key 8 (by omega) (by simp)
  have k10 := key 10 (by omega) (by simp)
  have k11 := key 11 (by omega) (by simp)
  have k12 := key 12 (by omega) (by simp)
  have k13 := key 13 (by omega) (by simp)
  have k14 := key 14 (by omega) (by simp)
  have k15 := key 15 (by omega) (by simp)
  have k16 := key 16 (by omega) (by simp)
  have k17 := key 17 (by omega) (by simp)
  rw [controls_read buf h, controls_read buf2 h2, k4, k5, k6, k8, k10, k11, k12, k13, k14, k15,
    k16, k17]

/-- The members of the view in terms of the bytes of the buffer. -/
theorem members_read (buf : List Byte) (h : 18 ≤ buf.length) :
    (GipInputPacket.read buf).buttons = buf[4].val + 256 * buf[5].val ∧
    (GipInputPacket.read buf).left_trigger = buf[6] ∧
    (GipInputPacket.read buf).right_trigger = buf[8] ∧
    (GipInputPacket.read buf).left_stick_y = signed16_le buf[10] buf[11] ∧
    (GipInputPacket.read buf).left_stick_x = signed16_le buf[12] buf[13] ∧
    (GipInputPacket.read buf).right_stick_y = signed16_le buf[14] buf[15] ∧
    (GipInputPacket.read buf).right_stick_x = signed16_le buf[16] buf[17] := by
  have hc := controls_read buf h
  have e1 := congrArg (fun x => x.1) hc
  have e2 := congrArg (fun x => x.2.1) hc
  have e3 := congrArg (fun x => x.2.2.1) hc
  have e4 := congrArg (fun x => x.2.2.2.1) hc
  have e5 := congrArg (fun x => x.2.2.2.2.1) hc
  have e6 := congrArg (fun x => x.2.2.2.2.2.1) hc
  have e7 := congrArg (fun x => x.2.2.2.2.2.2) hc
  exact ⟨e1, e2, e3, e5, e4, e7, e6⟩

/-- C1: for every received buffer of at least 18 bytes, the view through the packed
`GipInputPacket` layout has buttons = b[4] + 256*b[5], left_trigger = b[6], right_trigger = b[8],
left_stick_y, left_stick_x, right_stick_y, right_stick_x = the signed 16-bit little-endian values
of (b[10], b[11]), (b[12], b[13]), (b[14], b[15]), (b[16], b[17]); and two buffers of at least 18
bytes that agree at offsets 4, 5, 6, 8 and 10 to 17 decode to the same button, trigger and stick
values, whatever their bytes 0 to 3, 7, 9 and past offset 17 are. -/
theorem C1_input_packet_layout (buf : List Byte) (h : 18 ≤ buf.length) :
    GipInputPacket.sizeof = 18 ∧
    ((GipInputPacket.read buf).buttons = buf[4].val + 256 * buf[5].val ∧
    (GipInputPacket.read buf).left_trigger = buf[6] ∧
    (GipInputPacket.read buf).right_trigger = buf[8] ∧
    (GipInputPacket.read buf).left_stick_y = signed16_le buf[10] buf[11] ∧
    (GipInputPacket.read buf).left_stick_x = signed16_le buf[12] buf[13] ∧
    (GipInputPacket.read buf).right_stick_y = signed16_le buf[14] buf[15] ∧
    (GipInputPacket.read buf).right_stick_x = signed16_le buf[16] buf[17]) ∧
    ∀ (buf2 : List Byte), 18 ≤ buf2.length →
      (∀ i, i ∈ [4, 5, 6, 8, 10, 11, 12, 13, 14, 15, 16, 17] → buf2.getD i 0 = buf.getD i 0) →
      controls (GipInputPacket.read buf2) = controls (GipInputPacket.read buf) := by
  exact ⟨rfl, members_read buf h, fun buf2 h2 hagree => controls_agree buf buf2 h h2 hagree⟩

/-- Witness of C1 at a 20-byte buffer whose bytes 10 and 11 are 00 80. -/
theorem C1_input_packet_layout_witness :
    18 ≤ witness_buffer.length ∧ (GipInputPacket.read witness_buffer).left_stick_y = -32768 :=
  ⟨by decide, by
    have h := (C1_input_packet_layout witness_buffer (by decide)).2.1.2.2.2.1
    rw [h]
    decide⟩

/-- C2 (as stated, refuted): on the fixture frame the decoded right_trigger is not 0xFF and the
decoded left_stick_y is not -32768, so the listed expectations do not all hold. -/
theorem C2_fixture_counterexample :
    ¬ ((GipInputPacket.read fixture_frame).buttons = 0x0010 ∧
       (GipInputPacket.read fixture_frame).left_trigger = 0x7F ∧
       (GipInputPacket.read fixture_frame).right_trigger = 0xFF ∧
       (GipInputPacket.read fixture_frame).left_stick_x = 32767 ∧
       (GipInputPacket.read fixture_frame).left_stick_y = -32768 ∧
       (GipInputPacket.read fixture_frame).right_stick_x = 32767 ∧
       (GipInputPacket.read fixture_frame).right_stick_y = 32767) ∧
    (GipInputPacket.read fixture_frame).right_trigger ≠ 0xFF ∧
    (GipInputPacket.read fixture_frame).left_stick_y ≠ -32768 := by
  decide

/-- C2 (amended): decoding the fixture frame 04 5e 00 00 10 00 7F 00 80 00 FF 7F FF 7F FF 7F FF 7F
reports buttons = 0x0010 (exactly bit A, and `print_buttons` names only A), left_trigger = 0x7F,
right_trigger = 0x80 (the byte at offset 8), left_stick_y = 0x7FFF = 32767 (bytes 10 and 11),
left_stick_x = right_stick_y = right_stick_x = 0x7FFF. -/
theorem C2_fixture_decode :
    fixture_frame.length = 18 ∧
    GipInputPacket.read fixture_frame =
      { header := { command := 0x04, options := 0x5e, sequence := 0x00, length := 0x00 }
        buttons := 0x0010, left_trigger := 0x7F, padding1 := 0x00, right_trigger := 0x80,
        padding2 := 0x00, left_stick_y := 32767, left_stick_x := 32767, right_stick_y := 32767,
        right_stick_x := 32767 } ∧
    (GipInputPacket.read fixture_frame).buttons = XBOX_BTN_A ∧
    print_buttons (GipInputPacket.read fixture_frame).buttons = ["A "] := by
  decide

/-- C7 (as stated, refuted): for the single-bit masks 0x0001 (Sync) and 0x0002 (the unused bit)
`print_buttons` yields no name at all, not exactly one. -/
theorem C7_low_bits_counterexample :
    ¬ (∀ k, k < 16 → (print_buttons (2 ^ k)).length = 1) ∧
    print_buttons (2 ^ 0) = [] ∧ print_buttons (2 ^ 1) = [] ∧
    XBOX_BTN_SYNC = 2 ^ 0 ∧ XBOX_BTN_DUMMY1 = 2 ^ 1 := by
  refine ⟨fun h => ?_, by decide, by decide, by decide, by decide⟩
  have h0 := h 0 (by decide)
  revert h0
  decide

/-- C7 (amended): for each of the 14 single-bit masks 2^k with k = 2..15, `print_buttons` yields
exactly one name, the one of the mask `XBOX_BTN_*` equal to 2^k (MENU, VIEW, A, B, X, Y, UP, DOWN,
LEFT, RIGHT, LB, RB, LS, RS); for the unused bit 0x0002 and for the all-zero mask it yields no
name. -/
theorem C7_print_buttons_single_bits :
    (List.range 14).map (fun i => print_buttons (2 ^ (i + 2))) =
      [["MENU "], ["VIEW "], ["A "], ["B "], ["X "], ["Y "], ["UP "], ["DOWN "], ["LEFT "],
        ["RIGHT "], ["LB "], ["RB "], ["LS "], ["RS "]] ∧
    [XBOX_BTN_MENU, XBOX_BTN_VIEW, XBOX_BTN_A, XBOX_BTN_B, XBOX_BTN_X, XBOX_BTN_Y,
      XBOX_BTN_DPAD_UP, XBOX_BTN_DPAD_DOWN, XBOX_BTN_DPAD_LEFT, XBOX_BTN_DPAD_RIGHT, XBOX_BTN_LB,
      XBOX_BTN_RB, XBOX_BTN_LS, XBOX_BTN_RS] = (List.range 14).map (fun i => 2 ^ (i + 2)) ∧
    print_buttons XBOX_BTN_DUMMY1 = [] ∧
    print_buttons 0 = [] := by
  decide

set_option maxRecDepth 100000 in
/-- The default branch of `gip_command_name` is taken exactly outside the known codes (checked
on each of the 256 bytes). -/
theorem command_name_unknown_iff :
    ∀ c : Byte, gip_command_name c = "Unknown" ↔ c ∉ known_commands := by
  decide

/-- C8: `gip_command_name c` is "Unknown" exactly when `c` is none of the 11 codes 0x01, 0x02,
0x03, 0x04, 0x05, 0x06, 0x07, 0x09, 0x0A, 0x1E, 0x20; on these codes it returns Acknowledge,
Announce, Status, Identify, Power, Authenticate, Guide Button, Rumble, LED, Serial Number, Input
respectively, and these 11 names are pairwise distinct. -/
theorem C8_command_name :
    (∀ c : Byte, gip_command_name c = "Unknown" ↔ c ∉ known_commands) ∧
    known_commands = [0x01, 0x02, 0x03, 0x04, 0x05, 0x06, 0x07, 0x09, 0x0A, 0x1E, 0x20] ∧
    known_commands.map gip_command_name =
      ["Acknowledge", "Announce", "Status", "Identify", "Power", "Authenticate", "Guide Button",
        "Rumble", "LED", "Serial Number", "Input"] ∧
    (known_commands.map gip_command_name).Nodup := by
  exact ⟨command_name_unknown_iff, by decide, by decide, by decide⟩

/-- C9: for all bytes c, o, s, l and every payload, the view of the frame c o s l payload through
`GipHeader` has command = c, options = o, sequence = s, length = l; storing these four members at
their offsets and appending the payload gives back the frame; and the view of a stored header
followed by any bytes is that header. -/
theorem C9_header_round_trip (c o s l : Byte) (payload : List Byte) :
    GipHeader.read (c :: o :: s :: l :: payload) =
      { command := c, options := o, sequence := s, length := l } ∧
    (GipHeader.read (c :: o :: s :: l :: payload)).write ++
        (c :: o :: s :: l :: payload).drop GipHeader.sizeof = c :: o :: s :: l :: payload ∧
    ∀ (h : GipHeader) (rest : List Byte),
      (h.write ++ rest).length = GipHeader.sizeof + rest.length ∧
      GipHeader.read (h.write ++ rest) = h := by
  refine ⟨rfl, rfl, fun h rest => ⟨?_, rfl⟩⟩
  simp [GipHeader.write, GipHeader.sizeof, GipHeader.off_length, GipHeader.off_sequence,
    GipHeader.off_options, GipHeader.off_command]
  omega

/-! ### The trace projections on appended traces -/

@[simp] theorem transport_calls_append (a b : List Event) :
    transport_calls (a ++ b) = transport_calls a ++ transport_calls b := by
  simp [transport_calls]

@[simp] theorem sent_frames_append (a b : List Event) :
    sent_frames (a ++ b) = sent_frames a ++ sent_frames b := by
  simp [sent_frames]

@[simp] theorem receive_count_append (a b : List Event) :
    receive_count (a ++ b) = receive_count a + receive_count b := by
  simp [receive_count]

@[simp] theorem printed_append (a b : List Event) :
    printed (a ++ b) = printed a ++ printed b := by
  simp [printed]

@[simp] theorem frame_events_append (a b : List Event) :
    frame_events (a ++ b) = frame_events a ++ frame_events b := by
  simp [frame_events]

@[simp] theorem init_headers_append (a b : List Event) :
    init_headers (a ++ b) = init_headers a ++ init_headers b := by
  simp [init_headers]

@[simp] theorem transport_calls_nil : transport_calls [] = [] := rfl

@[simp] theorem transport_calls_cons_in (e : Byte) (n k : Nat) (tr : List Event) :
    transport_calls (.transfer_in e n k :: tr) = .transfer_in e n k :: transport_calls tr := rfl

@[simp] theorem transport_calls_cons_out (e : Byte) (d : List Byte) (k : Nat) (tr : List Event) :
    transport_calls (.transfer_out e d k :: tr) = .transfer_out e d k :: transport_calls tr := rfl

@[simp] theorem transport_calls_cons_printed (m : Msg) (tr : List Event) :
    transport_calls (.printed m :: tr) = transport_calls tr := rfl

@[simp] theorem transport_calls_cons_usleep (n : Nat) (tr : List Event) :
    transport_calls (.usleep n :: tr) = transport_calls tr := rfl

@[simp] theorem sent_frames_nil : sent_frames [] = [] := rfl

@[simp] theorem sent_frames_cons_in (e : Byte) (n k : Nat) (tr : List Event) :
    sent_frames (.transfer_in e n k :: tr) = sent_frames tr := rfl

@[simp] theorem sent_frames_cons_out (e : Byte) (d : List Byte) (k : Nat) (tr : List Event) :
    sent_frames (.transfer_out e d k :: tr) = d :: sent_frames tr := rfl

@[simp] theorem sent_frames_cons_printed (m : Msg) (tr : List Event) :
    sent_frames (.printed m :: tr) = sent_frames tr := rfl

@[simp] theorem sent_frames_cons_usleep (n : Nat) (tr : List Event) :
    sent_frames (.usleep n :: tr) = sent_frames tr := rfl

@[simp] theorem printed_nil : printed [] = [] := rfl

@[simp] theorem printed_cons_in (e : Byte) (n k : Nat) (tr : List Event) :
    printed (.transfer_in e n k :: tr) = printed tr := rfl

@[simp] theorem printed_cons_out (e : Byte) (d : List Byte) (k : Nat) (tr : List Event) :
    printed (.transfer_out e d k :: tr) = printed tr := rfl

@[simp] theorem printed_cons_printed (m : Msg) (tr : List Event) :
    printed (.printed m :: tr) = m :: printed tr := rfl

@[simp] theorem printed_cons_usleep (n : Nat) (tr : List Event) :
    printed (.usleep n :: tr) = printed tr := rfl

@[simp] theorem receive_count_nil : receive_count [] = 0 := rfl

@[simp] theorem receive_count_cons_in (e : Byte) (n k : Nat) (tr : List Event) :
    receive_count (.transfer_in e n k :: tr) = receive_count tr + 1 := rfl

@[simp] theorem receive_count_cons_out (e : Byte) (d : List Byte) (k : Nat) (tr : List Event) :
    receive_count (.transfer_out e d k :: tr) = receive_count tr := rfl

@[simp] theorem receive_count_cons_printed (m : Msg) (tr : List Event) :
    receive_count (.printed m :: tr) = receive_count tr := rfl

@[simp] theorem receive_count_cons_usleep (n : Nat) (tr : List Event) :
    receive_count (.usleep n :: tr) = receive_count tr := rfl

@[simp] theorem print_trace (st : State) (m : Msg) :
    (st.print m).trace = st.trace ++ [.printed m] := rfl

@[simp] theorem print_recvs (st : State) (m : Msg) : (st.print m).recvs = st.recvs := rfl

@[simp] theorem print_sends (st : State) (m : Msg) : (st.print m).sends = st.sends := rfl

@[simp] theorem print_running (st : State) (m : Msg) : (st.print m).running = st.running := rfl

/-! ### `send_ack` -/

/-- What `send_ack` does to the state: one OUT transfer of `ack_packet sequence`, then one
message that depends on the transport's answer. -/
theorem send_ack_state (t : Transport) (out_endpoint sequence : Byte) (st : State) :
    (send_ack t out_endpoint sequence st).2.recvs = st.recvs ∧
    (send_ack t out_endpoint sequence st).2.sends = st.sends + 1 ∧
    (send_ack t out_endpoint sequence st).2.running = st.running ∧
    (send_ack t out_endpoint sequence st).2.trace =
      st.trace ++ [.transfer_out out_endpoint (ack_packet sequence) 1000,
        .printed (if t.send st.sends = 0 then .ack_sent sequence else .ack_failed (t.send st.sends))] := by
  unfold send_ack interrupt_out
  split_ifs with h <;> simp [h]

/-- C3: for every 8-bit sequence value s, the frame that `send_ack` hands to the transport
is the 13 bytes 01 20 s 09 followed by nine 00 bytes (for s = 7: 01 20 07 09 00 ... 00); it is the
only transport call `send_ack` makes, whatever the transport answers; and the length member of its
header, 9, is the number of bytes that follow the 4-byte header. -/
theorem C3_send_ack_frame (t : Transport) (out_endpoint s : Byte) (st : State) :
    ack_packet s = [0x01, 0x20, s, 0x09, 0, 0, 0, 0, 0, 0, 0, 0, 0] ∧
    (ack_packet s).length = 13 ∧
    transport_calls (send_ack t out_endpoint s st).2.trace =
      transport_calls st.trace ++ [.transfer_out out_endpoint (ack_packet s) 1000] ∧
    sent_frames (send_ack t out_endpoint s st).2.trace = sent_frames st.trace ++ [ack_packet s] ∧
    GipHeader.read (ack_packet s) =
      { command := GIP_CMD_ACKNOWLEDGE, options := 0x20, sequence := s, length := 9 } ∧
    (GipHeader.read (ack_packet s)).length.val = ((ack_packet s).drop GipHeader.sizeof).length ∧
    (ack_packet s).drop GipHeader.sizeof = List.replicate 9 0 ∧
    ack_packet 7 = [0x01, 0x20, 0x07, 0x09, 0, 0, 0, 0, 0, 0, 0, 0, 0] := by
  refine ⟨rfl, rfl, ?_, ?_, rfl, rfl, rfl, rfl⟩
  · rw [(send_ack_state t out_endpoint s st).2.2.2]; simp
  · rw [(send_ack_state t out_endpoint s st).2.2.2]; simp

/-! ### IN transfers -/

@[simp] theorem signal_events_false : signal_events false = [] := rfl

@[simp] theorem interrupt_in_result (t : Transport) (e : Byte) (buffer : List Byte) (n k : Nat)
    (st : State) : (interrupt_in t e buffer n k st).result = (t.recv st.recvs).result := rfl

@[simp] theorem interrupt_in_transferred (t : Transport) (e : Byte) (buffer : List Byte)
    (n k : Nat) (st : State) :
    (interrupt_in t e buffer n k st).transferred = min n (t.recv st.recvs).data.length := by
  simp [interrupt_in]

@[simp] theorem interrupt_in_recvs (t : Transport) (e : Byte) (buffer : List Byte) (n k : Nat)
    (st : State) : (interrupt_in t e buffer n k st).st.recvs = st.recvs + 1 := by
  cases h : (t.recv st.recvs).signal <;> simp [interrupt_in, signal_handler, State.print, h]

@[simp] theorem interrupt_in_sends (t : Transport) (e : Byte) (buffer : List Byte) (n k : Nat)
    (st : State) : (interrupt_in t e buffer n k st).st.sends = st.sends := by
  cases h : (t.recv st.recvs).signal <;> simp [interrupt_in, signal_handler, State.print, h]

@[simp] theorem interrupt_in_running (t : Transport) (e : Byte) (buffer : List Byte) (n k : Nat)
    (st : State) :
    (interrupt_in t e buffer n k st).st.running = (st.running && !(t.recv st.recvs).signal) := by
  cases h : (t.recv st.recvs).signal <;> simp [interrupt_in, signal_handler, State.print, h]

@[simp] theorem interrupt_in_trace (t : Transport) (e : Byte) (buffer : List Byte) (n k : Nat)
    (st : State) :
    (interrupt_in t e buffer n k st).st.trace =
      st.trace ++ .transfer_in e n k :: signal_events (t.recv st.recvs).signal := by
  cases h : (t.recv st.recvs).signal <;>
    simp [interrupt_in, signal_handler, State.print, h, signal_events]

/-- After an IN transfer that delivered at least `off + 1` bytes, the byte of the buffer at `off`
(below the requested length) is the delivered one. -/
theorem interrupt_in_load (t : Transport) (e : Byte) (buffer : List Byte) (n k : Nat)
    (st : State) (off : Nat) (h1 : off < n) (h2 : off < (t.recv st.recvs).data.length) :
    load_u8 (interrupt_in t e buffer n k st).buffer off = load_u8 (t.recv st.recvs).data off := by
  unfold interrupt_in load_u8
  simp only
  rw [List.getD_append _ _ _ _ (by simp; omega)]
  rw [List.getD_eq_getElem _ _ (by simp; omega), List.getD_eq_getElem _ _ h2]
  simp

/-- After an IN transfer that delivered at least 4 bytes, the header seen in the buffer is the
header of the delivered bytes. -/
theorem interrupt_in_header (t : Transport) (e : Byte) (buffer : List Byte) (k : Nat)
    (st : State) (h : 4 ≤ (t.recv st.recvs).data.length) :
    GipHeader.read (interrupt_in t e buffer 64 k st).buffer =
      GipHeader.read (t.recv st.recvs).data := by
  unfold GipHeader.read
  rw [interrupt_in_load _ _ _ _ _ _ _ (by decide) (by simp [GipHeader.off_command]; omega),
    interrupt_in_load _ _ _ _ _ _ _ (by decide)
      (by simp [GipHeader.off_options, GipHeader.off_command]; omega),
    interrupt_in_load _ _ _ _ _ _ _ (by decide)
      (by simp [GipHeader.off_sequence, GipHeader.off_options, GipHeader.off_command]; omega),
    interrupt_in_load _ _ _ _ _ _ _ (by decide)
      (by simp [GipHeader.off_length, GipHeader.off_sequence, GipHeader.off_options,
        GipHeader.off_command]; omega)]

/-! ### The handshake -/

theorem sizeof_header : GipHeader.sizeof = 4 := rfl

theorem read_command (buf : List Byte) : (GipHeader.read buf).command = buf.getD 0 0 := rfl

theorem read_sequence (buf : List Byte) : (GipHeader.read buf).sequence = buf.getD 2 0 := rfl

/-- One pass of the handshake loop: it breaks exactly on a timeout, consumes one answer of the
script, and calls the transport once to receive and, for an Announce frame, once more to send the
Acknowledge that echoes byte 2 of the frame. -/
theorem init_body_spec (t : Transport) (i o : Byte) (attempt : Nat) (buffer : List Byte) (st : State) :
    (init_body t i o attempt buffer st).brk = decide ((t.recv st.recvs).result = LIBUSB_ERROR_TIMEOUT) ∧
    (init_body t i o attempt buffer st).st.recvs = st.recvs + 1 ∧
    (init_body t i o attempt buffer st).st.sends =
      st.sends + (if is_announce (t.recv st.recvs) then 1 else 0) ∧
    (init_body t i o attempt buffer st).st.running = (st.running && !(t.recv st.recvs).signal) ∧
    transport_calls (init_body t i o attempt buffer st).st.trace =
      transport_calls st.trace ++ .transfer_in i 64 2000 ::
        (if is_announce (t.recv st.recvs) then
          [.transfer_out o (ack_packet ((t.recv st.recvs).data.getD 2 0)) 1000] else []) := by
  have hsig : ∀ b, transport_calls (signal_events b) = [] := by intro b; cases b <;> rfl
  unfold init_body
  simp only [interrupt_in_result, interrupt_in_transferred, print_recvs, sizeof_header]
  by_cases h1 : (t.recv st.recvs).result = 0 ∧ min 64 (t.recv st.recvs).data.length ≥ 4
  · rw [if_pos h1]
    have h4 : 4 ≤ (t.recv st.recvs).data.length := by have := h1.2; omega
    have hdr := interrupt_in_header t i buffer 2000 (st.print (.init_reading (attempt + 1))) h4
    simp only [print_recvs] at hdr
    rw [hdr]
    simp only [read_command, read_sequence]
    by_cases h2 : (t.recv st.recvs).data.getD 0 0 = GIP_CMD_ANNOUNCE
    · have ha : is_announce (t.recv st.recvs) = true := decide_eq_true ⟨h1.1, h4, h2⟩
      simp only [if_pos h2, ha, if_true]
      simp [send_ack_state, h1.1, LIBUSB_ERROR_TIMEOUT, hsig]
    · have ha : is_announce (t.recv st.recvs) = false := decide_eq_false (fun h => h2 h.2.2)
      simp only [if_neg h2, ha]
      simp [h1.1, LIBUSB_ERROR_TIMEOUT, hsig]
  · have ha : is_announce (t.recv st.recvs) = false :=
      decide_eq_false (fun h => h1 ⟨h.1, by have := h.2.1; omega⟩)
    rw [if_neg h1]
    by_cases h3 : (t.recv st.recvs).result = LIBUSB_ERROR_TIMEOUT
    · simp [h3, ha, hsig]
    · simp [h3, ha, hsig]

theorem sent_frames_transport_calls (tr : List Event) :
    sent_frames (transport_calls tr) = sent_frames tr := by
  induction tr with
  | nil => rfl
  | cons e tr ih => cases e <;> simp [ih]

theorem receive_count_transport_calls (tr : List Event) :
    receive_count (transport_calls tr) = receive_count tr := by
  induction tr with
  | nil => rfl
  | cons e tr ih => cases e <;> simp [ih]

/-- A pass of the handshake loop that does not time out is followed by the next pass. -/
theorem init_loop_continue (t : Transport) (i o : Byte) (fuel attempt : Nat) (buffer : List Byte)
    (st : State) (ha : attempt < 5) (h : (t.recv st.recvs).result ≠ LIBUSB_ERROR_TIMEOUT) :
    init_loop t i o (fuel + 1) attempt buffer st =
      init_loop t i o fuel (attempt + 1) (init_body t i o attempt buffer st).buffer
        (init_body t i o attempt buffer st).st := by
  have hb := (init_body_spec t i o attempt buffer st).1
  rw [decide_eq_false h] at hb
  simp [init_loop, ha, hb]

/-- A pass of the handshake loop that times out is the last one. -/
theorem init_loop_break (t : Transport) (i o : Byte) (fuel attempt : Nat) (buffer : List Byte)
    (st : State) (ha : attempt < 5) (h : (t.recv st.recvs).result = LIBUSB_ERROR_TIMEOUT) :
    init_loop t i o (fuel + 1) attempt buffer st = (init_body t i o attempt buffer st).st := by
  have hb := (init_body_spec t i o attempt buffer st).1
  rw [decide_eq_true h] at hb
  simp [init_loop, ha, hb]

/-- Five passes are all the handshake loop can make from `attempt = 0`: more fuel changes
nothing once `attempt + fuel` reaches 5. -/
theorem init_loop_fuel (t : Transport) (i o : Byte) (fuel : Nat) :
    ∀ (attempt : Nat) (buffer : List Byte) (st : State), 5 ≤ attempt + fuel →
      init_loop t i o (fuel + 1) attempt buffer st = init_loop t i o fuel attempt buffer st := by
  induction fuel with
  | zero =>
    intro attempt buffer st h
    have ha : ¬ attempt < 5 := by omega
    simp [init_loop, ha]
  | succ fuel ih =>
    intro attempt buffer st h
    by_cases ha : attempt < 5
    · by_cases hb : (init_body t i o attempt buffer st).brk = true
      · simp [init_loop, ha, hb]
      · have := ih (attempt + 1) (init_body t i o attempt buffer st).buffer
          (init_body t i o attempt buffer st).st (by omega)
        rw [init_loop, if_pos ha]
        simp only [hb, Bool.false_eq_true, if_false]
        rw [this]
        conv_rhs => rw [init_loop, if_pos ha]
        simp only [hb, Bool.false_eq_true, if_false]
    · simp [init_loop, ha]

/-- The transport calls of the handshake loop are receives on the IN endpoint and sends of
Acknowledge frames on the OUT endpoint. -/
theorem init_loop_calls (t : Transport) (i o : Byte) (fuel : Nat) :
    ∀ (attempt : Nat) (buffer : List Byte) (st : State),
      ∃ calls, transport_calls (init_loop t i o fuel attempt buffer st).trace =
          transport_calls st.trace ++ calls ∧
        ∀ e ∈ calls, e = .transfer_in i 64 2000 ∨ ∃ s, e = .transfer_out o (ack_packet s) 1000 := by
  induction fuel with
  | zero => intro attempt buffer st; exact ⟨[], by simp [init_loop], by simp⟩
  | succ fuel ih =>
    intro attempt buffer st
    have hp : ∀ e ∈ (.transfer_in i 64 2000 ::
        (if is_announce (t.recv st.recvs) then
          [Event.transfer_out o (ack_packet ((t.recv st.recvs).data.getD 2 0)) 1000] else [])),
        e = .transfer_in i 64 2000 ∨ ∃ s, e = .transfer_out o (ack_packet s) 1000 := by
      intro e he
      split_ifs at he
      · simp only [List.mem_cons, List.mem_singleton, List.not_mem_nil, or_false] at he
        rcases he with he | he
        · exact Or.inl he
        · exact Or.inr ⟨_, he⟩
      · simp only [List.mem_singleton] at he
        exact Or.inl he
    by_cases ha : attempt < 5
    · by_cases h : (t.recv st.recvs).result = LIBUSB_ERROR_TIMEOUT
      · rw [init_loop_break t i o fuel attempt buffer st ha h]
        exact ⟨_, (init_body_spec t i o attempt buffer st).2.2.2.2, hp⟩
      · rw [init_loop_continue t i o fuel attempt buffer st ha h]
        obtain ⟨calls, hc, hm⟩ := ih (attempt + 1) (init_body t i o attempt buffer st).buffer
          (init_body t i o attempt buffer st).st
        refine ⟨(.transfer_in i 64 2000 ::
          (if is_announce (t.recv st.recvs) then
            [Event.transfer_out o (ack_packet ((t.recv st.recvs).data.getD 2 0)) 1000] else []))
            ++ calls, ?_, ?_⟩
        · rw [hc, (init_body_spec t i o attempt buffer st).2.2.2.2, List.append_assoc]
        · intro e he
          rcases List.mem_append.1 he with he | he
          · exact hp e he
          · exact hm e he
    · exact ⟨[], by simp [init_loop, ha], by simp⟩

/-- The transport calls of `initialize_controller`: those of its loop, then the send of the
Power-on frame. -/
theorem initialize_controller_calls (t : Transport) (i o : Byte) (buffer : List Byte)
    (st : State) :
    (initialize_controller t i o buffer st).1 = 0 ∧
    transport_calls (initialize_controller t i o buffer st).2.trace =
      transport_calls (init_loop t i o 5 0 buffer (st.print .init_banner)).trace ++
        [.transfer_out o power_on 1000] := by
  unfold initialize_controller interrupt_out
  refine ⟨rfl, ?_⟩
  simp only
  split_ifs <;> simp

/-- C4: the Power-on frame is the 5 bytes 05 20 00 01 00 (command Power, options 0x20, sequence
0, length 1, payload 00), its length byte is the number of payload bytes after the header, and for
every transport script `initialize_controller` sends it as its last transport call; every call
before it is a receive or the send of an Acknowledge frame, so what was received changes nothing
in the Power-on frame. -/
theorem C4_power_on_frame (t : Transport) (in_endpoint out_endpoint : Byte) (buffer : List Byte)
    (st : State) :
    power_on = [0x05, 0x20, 0x00, 0x01, 0x00] ∧
    GipHeader.read power_on =
      { command := GIP_CMD_POWER, options := 0x20, sequence := 0, length := 1 } ∧
    (GipHeader.read power_on).length.val = (power_on.drop GipHeader.sizeof).length ∧
    power_on.drop GipHeader.sizeof = [0x00] ∧
    ∃ calls,
      transport_calls (initialize_controller t in_endpoint out_endpoint buffer st).2.trace =
        transport_calls st.trace ++ calls ++ [.transfer_out out_endpoint power_on 1000] ∧
      (∀ e ∈ calls, e = .transfer_in in_endpoint 64 2000 ∨
        ∃ s, e = .transfer_out out_endpoint (ack_packet s) 1000) ∧
      (sent_frames (initialize_controller t in_endpoint out_endpoint buffer st).2.trace).getLast? =
        some power_on := by
  refine ⟨rfl, rfl, rfl, rfl, ?_⟩
  obtain ⟨calls, hc, hm⟩ :=
    init_loop_calls t in_endpoint out_endpoint 5 0 buffer (st.print .init_banner)
  have h := (initialize_controller_calls t in_endpoint out_endpoint buffer st).2
  rw [hc] at h
  simp only [print_trace, transport_calls_append, transport_calls_cons_printed,
    transport_calls_nil, List.append_nil] at h
  refine ⟨calls, h, hm, ?_⟩
  rw [← sent_frames_transport_calls, h]
  simp

/-! ### The streaming loop -/

theorem transport_calls_signal (b : Bool) : transport_calls (signal_events b) = [] := by
  cases b <;> rfl

theorem count_disconnected_signal (b : Bool) :
    (printed (signal_events b)).count .disconnected = 0 := by
  cases b <;> rfl

/-- One pass of the streaming loop: it breaks exactly when the device is gone, consumes one answer
of the script, makes one receive call and no send, and reports the disconnection once when it
breaks. -/
theorem input_body_spec (t : Transport) (i : Byte) (buffer : List Byte) (input_count : Nat)
    (st : State) :
    (input_body t i buffer input_count st).brk =
      decide ((t.recv st.recvs).result = LIBUSB_ERROR_NO_DEVICE) ∧
    (input_body t i buffer input_count st).st.recvs = st.recvs + 1 ∧
    (input_body t i buffer input_count st).st.sends = st.sends ∧
    (input_body t i buffer input_count st).st.running =
      (st.running && !(t.recv st.recvs).signal) ∧
    transport_calls (input_body t i buffer input_count st).st.trace =
      transport_calls st.trace ++ [.transfer_in i 64 100] ∧
    (printed (input_body t i buffer input_count st).st.trace).count .disconnected =
      (printed st.trace).count .disconnected +
        (if (t.recv st.recvs).result = LIBUSB_ERROR_NO_DEVICE then 1 else 0) := by
  unfold input_body
  simp only [interrupt_in_result, interrupt_in_transferred]
  by_cases h1 : (t.recv st.recvs).result = 0 ∧ min 64 (t.recv st.recvs).data.length ≥ GipHeader.sizeof
  · rw [if_pos h1]
    have hn : (t.recv st.recvs).result ≠ LIBUSB_ERROR_NO_DEVICE := by
      rw [h1.1]; decide
    split_ifs <;>
      simp [hn, transport_calls_signal, count_disconnected_signal]
  · rw [if_neg h1]
    by_cases h2 : (t.recv st.recvs).result = LIBUSB_ERROR_NO_DEVICE
    · have hne : LIBUSB_ERROR_NO_DEVICE ≠ LIBUSB_ERROR_TIMEOUT := by decide
      simp [h2, hne, transport_calls_signal, count_disconnected_signal]
    · split_ifs <;> simp [h2, transport_calls_signal, count_disconnected_signal]

/-- A pass of the streaming loop only adds to the trace, starting with its receive call. -/
theorem input_body_extends (t : Transport) (i : Byte) (buffer : List Byte) (input_count : Nat)
    (st : State) :
    ∃ tail, (input_body t i buffer input_count st).st.trace =
      st.trace ++ .transfer_in i 64 100 :: tail := by
  unfold input_body
  simp only
  split_ifs <;>
    simp only [print_trace, interrupt_in_trace, List.append_assoc, List.cons_append] <;>
    exact ⟨_, rfl⟩

/-- The streaming loop only adds to the trace. -/
theorem input_while_extends (t : Transport) (i : Byte) (fuel : Nat) :
    ∀ (buffer : List Byte) (input_count : Nat) (st : State),
      ∃ tail, (input_while t i fuel buffer input_count st).st.trace = st.trace ++ tail := by
  induction fuel with
  | zero => intro buffer input_count st; exact ⟨[], by simp [input_while]⟩
  | succ fuel ih =>
    intro buffer input_count st
    obtain ⟨tail1, h1⟩ := input_body_extends t i buffer input_count st
    by_cases hr : st.running = true
    · by_cases hb : (input_body t i buffer input_count st).brk = true
      · refine ⟨.transfer_in i 64 100 :: tail1, ?_⟩
        simp [input_while, hr, hb, h1]
      · obtain ⟨tail2, h2⟩ := ih (input_body t i buffer input_count st).buffer
          (input_body t i buffer input_count st).input_count
          (input_body t i buffer input_count st).st
        refine ⟨(.transfer_in i 64 100 :: tail1) ++ tail2, ?_⟩
        simp only [input_while, hr, hb, if_true, if_false, Bool.false_eq_true, h2, h1,
          List.append_assoc]
    · exact ⟨[], by simp [input_while, hr]⟩

/-- As long as no signal is handled and no receive reports that the device is gone, the streaming
loop keeps running: after `k` passes it has made `k` receives, nothing else, and has not exited. -/
theorem input_while_running (t : Transport) (i : Byte) (k : Nat) :
    ∀ (buffer : List Byte) (input_count : Nat) (st : State), st.running = true →
      (∀ n, n < k → (t.recv (st.recvs + n)).signal = false ∧
        (t.recv (st.recvs + n)).result ≠ LIBUSB_ERROR_NO_DEVICE) →
      (input_while t i k buffer input_count st).exited = false ∧
      (input_while t i k buffer input_count st).st.running = true ∧
      (input_while t i k buffer input_count st).st.recvs = st.recvs + k ∧
      (input_while t i k buffer input_count st).st.sends = st.sends ∧
      transport_calls (input_while t i k buffer input_count st).st.trace =
        transport_calls st.trace ++ List.replicate k (.transfer_in i 64 100) ∧
      (printed (input_while t i k buffer input_count st).st.trace).count .disconnected =
        (printed st.trace).count .disconnected := by
  induction k with
  | zero => intro buffer input_count st hr _; simp [input_while, hr]
  | succ k ih =>
    intro buffer input_count st hr hk
    obtain ⟨hb, hrecv, hsend, hrun, hcalls, hcount⟩ := input_body_spec t i buffer input_count st
    have h0 := hk 0 (Nat.succ_pos k)
    rw [Nat.add_zero] at h0
    rw [decide_eq_false h0.2] at hb
    rw [h0.1, hr] at hrun
    rw [if_neg h0.2, Nat.add_zero] at hcount
    have hk2 : ∀ n, n < k →
        (t.recv ((input_body t i buffer input_count st).st.recvs + n)).signal = false ∧
        (t.recv ((input_body t i buffer input_count st).st.recvs + n)).result ≠
          LIBUSB_ERROR_NO_DEVICE := by
      intro n hn
      have := hk (n + 1) (Nat.succ_lt_succ hn)
      rwa [hrecv, Nat.add_assoc, Nat.add_comm 1 n]
    obtain ⟨e1, e2, e3, e4, e5, e6⟩ := ih (input_body t i buffer input_count st).buffer
      (input_body t i buffer input_count st).input_count (input_body t i buffer input_count st).st
      hrun hk2
    have hunf : input_while t i (k + 1) buffer input_count st =
        input_while t i k (input_body t i buffer input_count st).buffer
          (input_body t i buffer input_count st).input_count
          (input_body t i buffer input_count st).st := by
      simp [input_while, hr, hb]
    rw [hunf]
    refine ⟨e1, e2, ?_, ?_, ?_, ?_⟩
    · rw [e3, hrecv]; omega
    · rw [e4, hsend]
    · rw [e5, hcalls, List.append_assoc]; rfl
    · rw [e6, hcount]

/-- When the first answer that reports a gone device is the one after `k` others (and no signal
was handled before), the streaming loop, given more than `k` passes, exits having made exactly
`k + 1` receives, no send, and one disconnection report. -/
theorem input_while_gone (t : Transport) (i : Byte) (k : Nat) :
    ∀ (fuel : Nat) (buffer : List Byte) (input_count : Nat) (st : State), st.running = true →
      (∀ n, n < k → (t.recv (st.recvs + n)).signal = false ∧
        (t.recv (st.recvs + n)).result ≠ LIBUSB_ERROR_NO_DEVICE) →
      (t.recv (st.recvs + k)).result = LIBUSB_ERROR_NO_DEVICE → k < fuel →
      (input_while t i fuel buffer input_count st).exited = true ∧
      (input_while t i fuel buffer input_count st).st.recvs = st.recvs + (k + 1) ∧
      (input_while t i fuel buffer input_count st).st.sends = st.sends ∧
      transport_calls (input_while t i fuel buffer input_count st).st.trace =
        transport_calls st.trace ++ List.replicate (k + 1) (.transfer_in i 64 100) ∧
      (printed (input_while t i fuel buffer input_count st).st.trace).count .disconnected =
        (printed st.trace).count .disconnected + 1 := by
  induction k with
  | zero =>
    intro fuel buffer input_count st hr _ hg hf
    obtain ⟨fuel, rfl⟩ : ∃ m, fuel = m + 1 := ⟨fuel - 1, by omega⟩
    obtain ⟨hb, hrecv, hsend, _, hcalls, hcount⟩ := input_body_spec t i buffer input_count st
    rw [Nat.add_zero] at hg
    rw [decide_eq_true hg] at hb
    rw [if_pos hg] at hcount
    have hunf : input_while t i (fuel + 1) buffer input_count st =
        { exited := true, buffer := (input_body t i buffer input_count st).buffer,
          input_count := (input_body t i buffer input_count st).input_count,
          st := (input_body t i buffer input_count st).st } := by
      simp [input_while, hr, hb]
    rw [hunf]
    exact ⟨rfl, hrecv, hsend, hcalls, hcount⟩
  | succ k ih =>
    intro fuel buffer input_count st hr hk hg hf
    obtain ⟨fuel, rfl⟩ : ∃ m, fuel = m + 1 := ⟨fuel - 1, by omega⟩
    obtain ⟨hb, hrecv, hsend, hrun, hcalls, hcount⟩ := input_body_spec t i buffer input_count st
    have h0 := hk 0 (Nat.succ_pos k)
    rw [Nat.add_zero] at h0
    rw [decide_eq_false h0.2] at hb
    rw [h0.1, hr] at hrun
    rw [if_neg h0.2, Nat.add_zero] at hcount
    have hk2 : ∀ n, n < k →
        (t.recv ((input_body t i buffer input_count st).st.recvs + n)).signal = false ∧
        (t.recv ((input_body t i buffer input_count st).st.recvs + n)).result ≠
          LIBUSB_ERROR_NO_DEVICE := by
      intro n hn
      have := hk (n + 1) (Nat.succ_lt_succ hn)
      rwa [hrecv, Nat.add_assoc, Nat.add_comm 1 n]
    have hg2 : (t.recv ((input_body t i buffer input_count st).st.recvs + k)).result =
        LIBUSB_ERROR_NO_DEVICE := by
      rwa [hrecv, Nat.add_assoc, Nat.add_comm 1 k]
    obtain ⟨e1, e3, e4, e5, e6⟩ := ih fuel (input_body t i buffer input_count st).buffer
      (input_body t i buffer input_count st).input_count (input_body t i buffer input_count st).st
      hrun hk2 hg2 (by omega)
    have hunf : input_while t i (fuel + 1) buffer input_count st =
        input_while t i fuel (input_body t i buffer input_count st).buffer
          (input_body t i buffer input_count st).input_count
          (input_body t i buffer input_count st).st := by
      simp [input_while, hr, hb]
    rw [hunf]
    refine ⟨e1, ?_, ?_, ?_, ?_⟩
    · rw [e3, hrecv]; omega
    · rw [e4, hsend]
    · rw [e5, hcalls, List.append_assoc]; rfl
    · rw [e6, hcount]

/-- The streaming loop is entered: `input_loop` prints its banner first and only adds to the
trace. -/
theorem input_loop_extends (t : Transport) (i : Byte) (buffer : List Byte) (fuel : Nat)
    (st : State) :
    ∃ tail, (input_loop t i buffer fuel st).st.trace =
      st.trace ++ .printed .loop_banner :: tail := by
  obtain ⟨tail, h⟩ := input_while_extends t i fuel buffer 0 (st.print .loop_banner)
  exact ⟨tail, by rw [input_loop, h, print_trace, List.append_assoc]; rfl⟩

/-- The handshake on a script that answers one Announce frame and then a timeout. -/
theorem handshake_announce_timeout (t : Transport) (i o : Byte) (buffer : List Byte) (st : State)
    (s b1 b3 : Byte) (rest : List Byte)
    (h0 : (t.recv st.recvs).result = 0)
    (hd : (t.recv st.recvs).data = GIP_CMD_ANNOUNCE :: b1 :: s :: b3 :: rest)
    (h1 : (t.recv (st.recvs + 1)).result = LIBUSB_ERROR_TIMEOUT) :
    transport_calls (init_loop t i o 5 0 buffer st).trace =
      transport_calls st.trace ++
        [.transfer_in i 64 2000, .transfer_out o (ack_packet s) 1000, .transfer_in i 64 2000] ∧
    (init_loop t i o 5 0 buffer st).recvs = st.recvs + 2 := by
  have hne : (t.recv st.recvs).result ≠ LIBUSB_ERROR_TIMEOUT := by rw [h0]; decide
  have ha : is_announce (t.recv st.recvs) = true :=
    decide_eq_true ⟨h0, by rw [hd]; simp, by rw [hd]; rfl⟩
  have hs : (t.recv st.recvs).data.getD 2 0 = s := by rw [hd]; rfl
  obtain ⟨_, r1, _, _, c1⟩ := init_body_spec t i o 0 buffer st
  rw [ha, if_pos rfl, hs] at c1
  have h1b : (t.recv (init_body t i o 0 buffer st).st.recvs).result = LIBUSB_ERROR_TIMEOUT := by
    rw [r1]; exact h1
  have hna : is_announce (t.recv (init_body t i o 0 buffer st).st.recvs) = false :=
    decide_eq_false (fun h => by rw [h1b] at h; exact absurd h.1 (by decide))
  obtain ⟨_, r2, _, _, c2⟩ := init_body_spec t i o 1 (init_body t i o 0 buffer st).buffer
    (init_body t i o 0 buffer st).st
  rw [hna, c1] at c2
  rw [init_loop_continue t i o 4 0 buffer st (by decide) hne,
    init_loop_break t i o 3 1 _ _ (by decide) h1b]
  exact ⟨by rw [c2]; simp, by rw [r2, r1]⟩

/-- C5: for every sequence value s, when the first receive of the handshake returns an Announce
frame (command 0x02, sequence s, at least 4 bytes) and every later receive times out,
`initialize_controller` makes exactly these transport calls, in this order: a receive, the send of
the Acknowledge frame with sequence s, a second receive, the send of the Power-on frame. So it
sends exactly two frames and makes exactly two receives; it returns 0, and `main` then enters the
streaming loop. -/
theorem C5_announce_ack_power (t : Transport) (in_endpoint out_endpoint : Byte)
    (buffer : List Byte) (st : State) (s b1 b3 : Byte) (rest : List Byte)
    (h0 : (t.recv st.recvs).result = 0)
    (hd : (t.recv st.recvs).data = 0x02 :: b1 :: s :: b3 :: rest)
    (h1 : ∀ n, st.recvs < n → (t.recv n).result = LIBUSB_ERROR_TIMEOUT) :
    (initialize_controller t in_endpoint out_endpoint buffer st).1 = 0 ∧
    transport_calls (initialize_controller t in_endpoint out_endpoint buffer st).2.trace =
      transport_calls st.trace ++
        [.transfer_in in_endpoint 64 2000, .transfer_out out_endpoint (ack_packet s) 1000,
          .transfer_in in_endpoint 64 2000, .transfer_out out_endpoint power_on 1000] ∧
    sent_frames (initialize_controller t in_endpoint out_endpoint buffer st).2.trace =
      sent_frames st.trace ++ [ack_packet s, power_on] ∧
    receive_count (initialize_controller t in_endpoint out_endpoint buffer st).2.trace =
      receive_count st.trace + 2 ∧
    ∀ (buffer2 : List Byte) (fuel : Nat), ∃ tail,
      (main_session t in_endpoint out_endpoint buffer buffer2 fuel st).st.trace =
        (initialize_controller t in_endpoint out_endpoint buffer st).2.trace ++
          .printed .loop_banner :: tail := by
  have hc := (initialize_controller_calls t in_endpoint out_endpoint buffer st).2
  rw [(handshake_announce_timeout t in_endpoint out_endpoint buffer (st.print .init_banner) s b1
    b3 rest h0 hd (h1 _ (Nat.lt_succ_self _))).1] at hc
  simp only [print_trace, transport_calls_append, transport_calls_cons_printed,
    transport_calls_nil, List.append_nil, List.append_assoc, List.cons_append,
    List.nil_append] at hc
  refine ⟨rfl, hc, ?_, ?_, ?_⟩
  · rw [← sent_frames_transport_calls, hc, sent_frames_append, sent_frames_transport_calls]
    rfl
  · rw [← receive_count_transport_calls, hc, receive_count_append,
      receive_count_transport_calls]
    rfl
  · intro buffer2 fuel
    exact input_loop_extends t in_endpoint buffer2 fuel _

/-- Witness of C5 at s = 3: the script answers Announce (sequence 3), then only timeouts. -/
theorem C5_announce_ack_power_witness :
    (script_announce3.recv 0).result = 0 ∧
    (script_announce3.recv 0).data = [0x02, 0x20, 0x03, 0x00] ∧
    (∀ n, 0 < n → (script_announce3.recv n).result = LIBUSB_ERROR_TIMEOUT) ∧
    sent_frames (initialize_controller script_announce3 0x81 0x01 [] State.start).2.trace =
      [ack_packet 3, power_on] ∧
    receive_count (initialize_controller script_announce3 0x81 0x01 [] State.start).2.trace = 2 :=
  have hto : ∀ n, 0 < n → (script_announce3.recv n).result = LIBUSB_ERROR_TIMEOUT := by
    intro n hn
    have : n ≠ 0 := by omega
    simp [script_announce3, this]
  have h := C5_announce_ack_power script_announce3 0x81 0x01 [] State.start 3 0x20 0x00 [] rfl rfl
    hto
  ⟨rfl, rfl, hto, h.2.2.1, h.2.2.2.1⟩

/-- C6: in the streaming loop entered with `running` set and no signal handled, as long as no
receive has reported LIBUSB_ERROR_NO_DEVICE the loop keeps running (after k such results, be they
timeouts, other errors or frames, it has made k receives, no send, no disconnection report, and has
not exited); and when the next result is LIBUSB_ERROR_NO_DEVICE the loop, given any larger number
of passes, exits having made exactly k + 1 receives, no send, and exactly one disconnection
report. With k = 0: when the first receive reports the device gone, exactly one receive is
made. -/
theorem C6_device_gone_ends_loop (t : Transport) (in_endpoint : Byte) (buffer : List Byte)
    (st : State) (k : Nat) (hrun : st.running = true)
    (hsig : ∀ n, (t.recv n).signal = false)
    (hk : ∀ n, n < k → (t.recv (st.recvs + n)).result ≠ LIBUSB_ERROR_NO_DEVICE) :
    ((input_loop t in_endpoint buffer k st).exited = false ∧
      transport_calls (input_loop t in_endpoint buffer k st).st.trace =
        transport_calls st.trace ++ List.replicate k (.transfer_in in_endpoint 64 100) ∧
      (printed (input_loop t in_endpoint buffer k st).st.trace).count .disconnected =
        (printed st.trace).count .disconnected) ∧
    ((t.recv (st.recvs + k)).result = LIBUSB_ERROR_NO_DEVICE → ∀ fuel, k < fuel →
      (input_loop t in_endpoint buffer fuel st).exited = true ∧
      transport_calls (input_loop t in_endpoint buffer fuel st).st.trace =
        transport_calls st.trace ++ List.replicate (k + 1) (.transfer_in in_endpoint 64 100) ∧
      receive_count (input_loop t in_endpoint buffer fuel st).st.trace =
        receive_count st.trace + (k + 1) ∧
      sent_frames (input_loop t in_endpoint buffer fuel st).st.trace = sent_frames st.trace ∧
      (printed (input_loop t in_endpoint buffer fuel st).st.trace).count .disconnected =
        (printed st.trace).count .disconnected + 1) := by
  have hk2 : ∀ n, n < k → (t.recv ((st.print .loop_banner).recvs + n)).signal = false ∧
      (t.recv ((st.print .loop_banner).recvs + n)).result ≠ LIBUSB_ERROR_NO_DEVICE :=
    fun n hn => ⟨hsig _, hk n hn⟩
  have hb : (printed (st.print .loop_banner).trace).count .disconnected =
      (printed st.trace).count .disconnected := by simp
  have hreplicate : ∀ m, receive_count (List.replicate m (.transfer_in in_endpoint 64 100)) = m ∧
      sent_frames (List.replicate m (.transfer_in in_endpoint 64 100)) = [] := by
    intro m
    induction m with
    | zero => exact ⟨rfl, rfl⟩
    | succ m ih => simp [List.replicate_succ, ih]
  constructor
  · obtain ⟨e1, _, _, _, e5, e6⟩ :=
      input_while_running t in_endpoint k buffer 0 (st.print .loop_banner) hrun hk2
    refine ⟨e1, ?_, ?_⟩
    · rw [input_loop, e5]; simp
    · rw [input_loop, e6, hb]
  · intro hg fuel hf
    obtain ⟨e1, _, _, e5, e6⟩ :=
      input_while_gone t in_endpoint k fuel buffer 0 (st.print .loop_banner) hrun hk2 hg hf
    have hcalls : transport_calls (input_loop t in_endpoint buffer fuel st).st.trace =
        transport_calls st.trace ++ List.replicate (k + 1) (.transfer_in in_endpoint 64 100) := by
      rw [input_loop, e5]; simp
    refine ⟨e1, hcalls, ?_, ?_, ?_⟩
    · rw [← receive_count_transport_calls, hcalls, receive_count_append,
        receive_count_transport_calls, (hreplicate (k + 1)).1]
    · rw [← sent_frames_transport_calls, hcalls, sent_frames_append,
        sent_frames_transport_calls, (hreplicate (k + 1)).2, List.append_nil]
    · rw [input_loop, e6, hb]

/-- Witness of C6: every receive reports the device gone; exactly one receive, one report. -/
theorem C6_device_gone_ends_loop_witness :
    State.start.running = true ∧ (∀ n, (script_gone.recv n).signal = false) ∧
    (script_gone.recv 0).result = LIBUSB_ERROR_NO_DEVICE ∧
    (input_loop script_gone 0x81 [] 3 State.start).exited = true ∧
    transport_calls (input_loop script_gone 0x81 [] 3 State.start).st.trace =
      [.transfer_in 0x81 64 100] ∧
    (printed (input_loop script_gone 0x81 [] 3 State.start).st.trace).count .disconnected = 1 :=
  have h := (C6_device_gone_ends_loop script_gone 0x81 [] State.start 0 rfl (fun _ => rfl)
    (fun n hn => absurd hn (Nat.not_lt_zero n))).2 rfl 3 (by decide)
  ⟨rfl, fun _ => rfl, rfl, h.1, h.2.1, h.2.2.2.2⟩

/-! ### Receives of fewer than 4 bytes -/

/-- A handshake pass whose receive succeeds with fewer than 4 bytes takes the last `else`. -/
theorem init_body_short (t : Transport) (i o : Byte) (attempt : Nat) (buffer : List Byte)
    (st : State) (h0 : (t.recv st.recvs).result = 0) (hlen : (t.recv st.recvs).data.length < 4) :
    (init_body t i o attempt buffer st).brk = false ∧
    (init_body t i o attempt buffer st).st.trace =
      st.trace ++ .printed (.init_reading (attempt + 1)) :: .transfer_in i 64 2000 ::
        (signal_events (t.recv st.recvs).signal ++ [.printed (.init_error 0)]) := by
  have hc : ¬ ((t.recv st.recvs).result = 0 ∧
      min 64 (t.recv st.recvs).data.length ≥ GipHeader.sizeof) := by
    rw [sizeof_header]; intro h; have := h.2; omega
  have ht : ¬ (t.recv st.recvs).result = LIBUSB_ERROR_TIMEOUT := by rw [h0]; decide
  unfold init_body
  simp only [interrupt_in_result, interrupt_in_transferred, print_recvs]
  rw [if_neg hc, if_neg ht]
  simp only [print_trace, interrupt_in_trace, print_recvs, h0, List.append_assoc,
    List.cons_append, List.nil_append, and_self]

/-- A streaming pass whose receive succeeds with fewer than 4 bytes only prints a read error. -/
theorem input_body_short (t : Transport) (i : Byte) (buffer : List Byte) (input_count : Nat)
    (st : State) (h0 : (t.recv st.recvs).result = 0) (hlen : (t.recv st.recvs).data.length < 4) :
    (input_body t i buffer input_count st).brk = false ∧
    (input_body t i buffer input_count st).input_count = input_count ∧
    (input_body t i buffer input_count st).st.trace =
      st.trace ++ .transfer_in i 64 100 ::
        (signal_events (t.recv st.recvs).signal ++ [.printed (.read_error 0)]) := by
  have hc : ¬ ((t.recv st.recvs).result = 0 ∧
      min 64 (t.recv st.recvs).data.length ≥ GipHeader.sizeof) := by
    rw [sizeof_header]; intro h; have := h.2; omega
  have ht : (t.recv st.recvs).result ≠ LIBUSB_ERROR_TIMEOUT := by rw [h0]; decide
  have hn : ¬ (t.recv st.recvs).result = LIBUSB_ERROR_NO_DEVICE := by rw [h0]; decide
  unfold input_body
  simp only [interrupt_in_result, interrupt_in_transferred]
  rw [if_neg hc, if_pos ht, if_neg hn]
  simp only [print_trace, interrupt_in_trace, h0, List.append_assoc, List.cons_append,
    List.nil_append, and_self]

/-- C10: a receive that completes with fewer than 4 bytes (0, 1, 2 or 3) is not decoded, whatever
its bytes are. In the handshake the pass sends nothing (no Acknowledge, even if the first byte is
0x02), reports no header, prints the error line, does not break, and the loop goes on to the next
attempt. In the streaming loop the pass emits no input snapshot, no guide-button event and no
unhandled-frame event, leaves the input count unchanged, prints the read-error line, does not
break, and the loop goes on to the next pass. -/
theorem C10_short_receive (t : Transport) (in_endpoint out_endpoint : Byte) (attempt : Nat)
    (buffer : List Byte) (input_count : Nat) (st : State)
    (h0 : (t.recv st.recvs).result = 0) (hlen : (t.recv st.recvs).data.length < 4) :
    ((init_body t in_endpoint out_endpoint attempt buffer st).brk = false ∧
      sent_frames (init_body t in_endpoint out_endpoint attempt buffer st).st.trace =
        sent_frames st.trace ∧
      init_headers (init_body t in_endpoint out_endpoint attempt buffer st).st.trace =
        init_headers st.trace ∧
      receive_count (init_body t in_endpoint out_endpoint attempt buffer st).st.trace =
        receive_count st.trace + 1 ∧
      Event.printed (.init_error 0) ∈
        (init_body t in_endpoint out_endpoint attempt buffer st).st.trace ∧
      ∀ fuel, attempt < 5 →
        init_loop t in_endpoint out_endpoint (fuel + 1) attempt buffer st =
          init_loop t in_endpoint out_endpoint fuel (attempt + 1)
            (init_body t in_endpoint out_endpoint attempt buffer st).buffer
            (init_body t in_endpoint out_endpoint attempt buffer st).st) ∧
    ((input_body t in_endpoint buffer input_count st).brk = false ∧
      (input_body t in_endpoint buffer input_count st).input_count = input_count ∧
      sent_frames (input_body t in_endpoint buffer input_count st).st.trace =
        sent_frames st.trace ∧
      frame_events (input_body t in_endpoint buffer input_count st).st.trace =
        frame_events st.trace ∧
      receive_count (input_body t in_endpoint buffer input_count st).st.trace =
        receive_count st.trace + 1 ∧
      Event.printed (.read_error 0) ∈ (input_body t in_endpoint buffer input_count st).st.trace ∧
      ∀ fuel, st.running = true →
        input_while t in_endpoint (fuel + 1) buffer input_count st =
          input_while t in_endpoint fuel (input_body t in_endpoint buffer input_count st).buffer
            (input_body t in_endpoint buffer input_count st).input_count
            (input_body t in_endpoint buffer input_count st).st) := by
  obtain ⟨b1, t1⟩ := init_body_short t in_endpoint out_endpoint attempt buffer st h0 hlen
  obtain ⟨b2, c2, t2⟩ := input_body_short t in_endpoint buffer input_count st h0 hlen
  have hne : (t.recv st.recvs).result ≠ LIBUSB_ERROR_TIMEOUT := by rw [h0]; decide
  have q1 : ∀ b : Bool,
      sent_frames (.printed (.init_reading (attempt + 1)) :: .transfer_in in_endpoint 64 2000 ::
        (signal_events b ++ [.printed (.init_error 0)])) = [] ∧
      init_headers (.printed (.init_reading (attempt + 1)) :: .transfer_in in_endpoint 64 2000 ::
        (signal_events b ++ [.printed (.init_error 0)])) = [] ∧
      receive_count (.printed (.init_reading (attempt + 1)) :: .transfer_in in_endpoint 64 2000 ::
        (signal_events b ++ [.printed (.init_error 0)])) = 1 := by
    intro b; cases b <;> exact ⟨rfl, rfl, rfl⟩
  have q2 : ∀ b : Bool,
      sent_frames (.transfer_in in_endpoint 64 100 ::
        (signal_events b ++ [.printed (.read_error 0)])) = [] ∧
      frame_events (.transfer_in in_endpoint 64 100 ::
        (signal_events b ++ [.printed (.read_error 0)])) = [] ∧
      receive_count (.transfer_in in_endpoint 64 100 ::
        (signal_events b ++ [.printed (.read_error 0)])) = 1 := by
    intro b; cases b <;> exact ⟨rfl, rfl, rfl⟩
  refine ⟨⟨b1, ?_, ?_, ?_, ?_, ?_⟩, ⟨b2, c2, ?_, ?_, ?_, ?_, ?_⟩⟩
  · rw [t1, sent_frames_append, (q1 _).1, List.append_nil]
  · rw [t1, init_headers_append, (q1 _).2.1, List.append_nil]
  · rw [t1, receive_count_append, (q1 _).2.2]
  · rw [t1]; simp
  · intro fuel ha
    exact init_loop_continue t in_endpoint out_endpoint fuel attempt buffer st ha hne
  · rw [t2, sent_frames_append, (q2 _).1, List.append_nil]
  · rw [t2, frame_events_append, (q2 _).2.1, List.append_nil]
  · rw [t2, receive_count_append, (q2 _).2.2]
  · rw [t2]; simp
  · intro fuel hr
    simp [input_while, hr, b2]

/-- Witness of C10: the first receive completes with the 3 bytes 02 20 05; neither phase decodes
it, and neither loop breaks. -/
theorem C10_short_receive_witness :
    (script_short.recv 0).result = 0 ∧ (script_short.recv 0).data.length < 4 ∧
    (init_body script_short 0x81 0x01 0 [] State.start).brk = false ∧
    sent_frames (init_body script_short 0x81 0x01 0 [] State.start).st.trace = [] ∧
    (input_body script_short 0x81 [] 0 State.start).brk = false ∧
    frame_events (input_body script_short 0x81 [] 0 State.start).st.trace = [] :=
  have h := C10_short_receive script_short 0x81 0x01 0 [] 0 State.start rfl (by decide)
  ⟨rfl, by decide, h.1.1, h.1.2.1, h.2.1, h.2.2.2.2.1⟩

/-! ### Classification of received frames in the streaming loop -/

/-- After an IN transfer that delivered at least 18 bytes, the input packet seen in the buffer is
the input packet of the delivered bytes. -/
theorem interrupt_in_input (t : Transport) (e : Byte) (buffer : List Byte) (k : Nat)
    (st : State) (h : 18 ≤ (t.recv st.recvs).data.length) :
    GipInputPacket.read (interrupt_in t e buffer 64 k st).buffer =
      GipInputPacket.read (t.recv st.recvs).data := by
  have hl : ∀ off, off < 18 →
      load_u8 (interrupt_in t e buffer 64 k st).buffer off = load_u8 (t.recv st.recvs).data off :=
    fun off ho => interrupt_in_load t e buffer 64 k st off (by omega) (by omega)
  unfold GipInputPacket.read
  simp only [GipInputPacket.off_header, List.drop_zero, load_i16, load_u16]
  rw [interrupt_in_header t e buffer k st (by omega)]
  rw [hl _ (by decide), hl _ (by decide), hl _ (by decide), hl _ (by decide), hl _ (by decide),
    hl _ (by decide), hl _ (by decide), hl _ (by decide), hl _ (by decide), hl _ (by decide),
    hl _ (by decide), hl _ (by decide), hl _ (by decide), hl _ (by decide)]

/-- Storing another value in byte 3 (the header's length member) changes no other byte. -/
theorem load_u8_set3 (data : List Byte) (x : Byte) (off : Nat) (h : off ≠ 3) :
    load_u8 (data.set 3 x) off = load_u8 data off := by
  unfold load_u8
  rw [List.getD_eq_getElem?_getD, List.getD_eq_getElem?_getD, List.getElem?_set_ne (Ne.symm h)]

theorem snapshot_set3 (count : Nat) (data : List Byte) (x : Byte) :
    snapshot count (GipInputPacket.read (data.set 3 x)) =
      snapshot count (GipInputPacket.read data) := by
  have hl : ∀ off, off ≠ 3 → load_u8 (data.set 3 x) off = load_u8 data off :=
    fun off ho => load_u8_set3 data x off ho
  unfold snapshot GipInputPacket.read
  simp only [load_i16, load_u16]
  rw [hl _ (by decide), hl _ (by decide), hl _ (by decide), hl _ (by decide), hl _ (by decide),
    hl _ (by decide), hl _ (by decide), hl _ (by decide), hl _ (by decide), hl _ (by decide),
    hl _ (by decide), hl _ (by decide)]

theorem classified_event_set3 (input_count n : Nat) (data : List Byte) (x : Byte) :
    classified_event input_count n (data.set 3 x) = classified_event input_count n data := by
  have h0 : (data.set 3 x).getD 0 0 = data.getD 0 0 := load_u8_set3 data x 0 (by decide)
  unfold classified_event
  rw [h0, snapshot_set3]

/-- A streaming pass whose receive succeeds with at least 4 bytes prints exactly the classified
event after its receive call, and does not break. -/
theorem input_body_frame (t : Transport) (i : Byte) (buffer : List Byte) (input_count : Nat)
    (st : State) (h0 : (t.recv st.recvs).result = 0)
    (h4 : 4 ≤ min 64 (t.recv st.recvs).data.length) :
    (input_body t i buffer input_count st).brk = false ∧
    (input_body t i buffer input_count st).input_count =
      (if (t.recv st.recvs).data.getD 0 0 = 0x20 ∧ 18 ≤ min 64 (t.recv st.recvs).data.length
        then input_count + 1 else input_count) ∧
    (input_body t i buffer input_count st).st.trace =
      st.trace ++ .transfer_in i 64 100 :: (signal_events (t.recv st.recvs).signal ++
        [.printed (classified_event input_count (min 64 (t.recv st.recvs).data.length)
          (t.recv st.recvs).data)]) := by
  have hc : (t.recv st.recvs).result = 0 ∧
      min 64 (t.recv st.recvs).data.length ≥ GipHeader.sizeof := ⟨h0, h4⟩
  have hdr := interrupt_in_header t i buffer 100 st (by omega)
  unfold input_body classified_event
  simp only [interrupt_in_result, interrupt_in_transferred]
  rw [if_pos hc, hdr]
  simp only [read_command]
  by_cases h1 : (t.recv st.recvs).data.getD 0 0 = GIP_CMD_INPUT ∧
      min 64 (t.recv st.recvs).data.length ≥ GipInputPacket.sizeof
  · have h1b : (t.recv st.recvs).data.getD 0 0 = 0x20 ∧
        18 ≤ min 64 (t.recv st.recvs).data.length := h1
    have h18 : 18 ≤ (t.recv st.recvs).data.length := by have := h1b.2; omega
    rw [if_pos h1, if_pos h1b, if_pos h1b, interrupt_in_input t i buffer 100 st h18]
    simp only [print_trace, interrupt_in_trace, List.append_assoc, List.cons_append, snapshot,
      true_and]
  · have h1b : ¬ ((t.recv st.recvs).data.getD 0 0 = 0x20 ∧
        18 ≤ min 64 (t.recv st.recvs).data.length) := h1
    rw [if_neg h1, if_neg h1b, if_neg h1b]
    by_cases h2 : (t.recv st.recvs).data.getD 0 0 = GIP_CMD_GUIDE_BUTTON
    · have h2b : (t.recv st.recvs).data.getD 0 0 = 0x07 := h2
      rw [if_pos h2, if_pos h2b]
      simp only [print_trace, interrupt_in_trace, List.append_assoc, List.cons_append, true_and]
    · have h2b : ¬ (t.recv st.recvs).data.getD 0 0 = 0x07 := h2
      rw [if_neg h2, if_neg h2b]
      simp only [print_trace, interrupt_in_trace, List.append_assoc, List.cons_append, true_and]

theorem frame_events_classified (input_count n : Nat) (data : List Byte) :
    frame_events [.printed (classified_event input_count n data)] =
      [classified_event input_count n data] := by
  unfold classified_event
  split_ifs <;> rfl

theorem frame_events_pass (i : Byte) (b : Bool) (m : Msg) :
    frame_events (.transfer_in i 64 100 :: (signal_events b ++ [.printed m])) =
      frame_events [.printed m] := by
  cases b <;> rfl

theorem sent_frames_pass (i : Byte) (b : Bool) (m : Msg) :
    sent_frames (.transfer_in i 64 100 :: (signal_events b ++ [.printed m])) = [] := by
  cases b <;> rfl

/-- The three cases of the classification. -/
theorem classified_event_cases (input_count n : Nat) (data : List Byte) :
    (is_snapshot (classified_event input_count n data) = true ↔
      data.getD 0 0 = 0x20 ∧ 18 ≤ n) ∧
    (data.getD 0 0 = 0x20 ∧ 18 ≤ n → classified_event input_count n data =
      snapshot (input_count + 1) (GipInputPacket.read data)) ∧
    (classified_event input_count n data = .guide_button ↔
      ¬ (data.getD 0 0 = 0x20 ∧ 18 ≤ n) ∧ data.getD 0 0 = 0x07) ∧
    (¬ (data.getD 0 0 = 0x20 ∧ 18 ≤ n) → data.getD 0 0 ≠ 0x07 →
      classified_event input_count n data =
        .other_packet (gip_command_name (data.getD 0 0)) (data.getD 0 0)) ∧
    (data.getD 0 0 = 0x20 → n < 18 →
      classified_event input_count n data = .other_packet "Input" 0x20) := by
  unfold classified_event
  by_cases h1 : data.getD 0 0 = 0x20 ∧ 18 ≤ n
  · rw [if_pos h1]
    refine ⟨⟨fun _ => h1, fun _ => rfl⟩, fun _ => rfl, ⟨fun h => ?_, fun h => absurd h1 h.1⟩,
      fun h => absurd h1 h, fun _ hn => absurd h1.2 (by omega)⟩
    exact absurd h (by simp [snapshot])
  · rw [if_neg h1]
    by_cases h2 : data.getD 0 0 = 0x07
    · rw [if_pos h2]
      refine ⟨⟨fun h => absurd h (by simp [is_snapshot]), fun h => absurd h h1⟩,
        fun h => absurd h h1, ⟨fun _ => ⟨h1, h2⟩, fun _ => rfl⟩, fun _ h => absurd h2 h,
        fun h _ => ?_⟩
      rw [h] at h2
      exact absurd h2 (by decide)
    · rw [if_neg h2]
      refine ⟨⟨fun h => absurd h (by simp [is_snapshot]), fun h => absurd h h1⟩,
        fun h => absurd h h1, ⟨fun h => absurd h (by simp), fun h => absurd h.2 h2⟩,
        fun _ _ => rfl, fun h _ => ?_⟩
      rw [h]
      rfl

/-- C11: in the streaming loop, a successful receive of n >= 4 bytes (n the number of bytes
transferred) adds exactly one frame event to the trace, the classified one: an input snapshot (of
the delivered bytes, numbered input_count + 1) if and only if byte 0 is 0x20 and n >= 18;
otherwise a guide-button event if and only if byte 0 is 0x07; otherwise an unhandled-frame
diagnostic carrying the command byte and its name. The event does not depend on byte 3, the
header's length member; an Input frame with n < 18 gives the unhandled-frame diagnostic for
"Input"; the pass sends nothing, does not break, and the loop goes on to the next pass. -/
theorem C11_streaming_classification (t : Transport) (in_endpoint : Byte) (buffer : List Byte)
    (input_count : Nat) (st : State) (h0 : (t.recv st.recvs).result = 0)
    (h4 : 4 ≤ min 64 (t.recv st.recvs).data.length) :
    frame_events (input_body t in_endpoint buffer input_count st).st.trace =
      frame_events st.trace ++
        [classified_event input_count (min 64 (t.recv st.recvs).data.length)
          (t.recv st.recvs).data] ∧
    (input_body t in_endpoint buffer input_count st).st.trace =
      st.trace ++ .transfer_in in_endpoint 64 100 :: (signal_events (t.recv st.recvs).signal ++
        [.printed (classified_event input_count (min 64 (t.recv st.recvs).data.length)
          (t.recv st.recvs).data)]) ∧
    ((is_snapshot (classified_event input_count (min 64 (t.recv st.recvs).data.length)
        (t.recv st.recvs).data) = true ↔
      (t.recv st.recvs).data.getD 0 0 = 0x20 ∧ 18 ≤ min 64 (t.recv st.recvs).data.length) ∧
    ((t.recv st.recvs).data.getD 0 0 = 0x20 ∧ 18 ≤ min 64 (t.recv st.recvs).data.length →
      classified_event input_count (min 64 (t.recv st.recvs).data.length)
        (t.recv st.recvs).data =
        snapshot (input_count + 1) (GipInputPacket.read (t.recv st.recvs).data)) ∧
    (classified_event input_count (min 64 (t.recv st.recvs).data.length)
        (t.recv st.recvs).data = .guide_button ↔
      ¬ ((t.recv st.recvs).data.getD 0 0 = 0x20 ∧ 18 ≤ min 64 (t.recv st.recvs).data.length) ∧
        (t.recv st.recvs).data.getD 0 0 = 0x07) ∧
    (¬ ((t.recv st.recvs).data.getD 0 0 = 0x20 ∧ 18 ≤ min 64 (t.recv st.recvs).data.length) →
      (t.recv st.recvs).data.getD 0 0 ≠ 0x07 →
      classified_event input_count (min 64 (t.recv st.recvs).data.length)
        (t.recv st.recvs).data =
        .other_packet (gip_command_name ((t.recv st.recvs).data.getD 0 0))
          ((t.recv st.recvs).data.getD 0 0)) ∧
    ((t.recv st.recvs).data.getD 0 0 = 0x20 → min 64 (t.recv st.recvs).data.length < 18 →
      classified_event input_count (min 64 (t.recv st.recvs).data.length)
        (t.recv st.recvs).data = .other_packet "Input" 0x20)) ∧
    (∀ x : Byte, classified_event input_count (min 64 (t.recv st.recvs).data.length)
        ((t.recv st.recvs).data.set 3 x) =
      classified_event input_count (min 64 (t.recv st.recvs).data.length)
        (t.recv st.recvs).data) ∧
    (input_body t in_endpoint buffer input_count st).brk = false ∧
    sent_frames (input_body t in_endpoint buffer input_count st).st.trace =
      sent_frames st.trace ∧
    ∀ fuel, st.running = true →
      input_while t in_endpoint (fuel + 1) buffer input_count st =
        input_while t in_endpoint fuel (input_body t in_endpoint buffer input_count st).buffer
          (input_body t in_endpoint buffer input_count st).input_count
          (input_body t in_endpoint buffer input_count st).st := by
  obtain ⟨hb, _, ht⟩ := input_body_frame t in_endpoint buffer input_count st h0 h4
  refine ⟨?_, ht, classified_event_cases _ _ _, fun x => classified_event_set3 _ _ _ x, hb, ?_,
    ?_⟩
  · rw [ht, frame_events_append, frame_events_pass, frame_events_classified]
  · rw [ht, sent_frames_append, sent_frames_pass, List.append_nil]
  · intro fuel hr
    simp [input_while, hr, hb]

/-- Witness of C11: six bytes 20 00 01 0e 10 00 are received (an Input header announcing 14
payload bytes); the pass emits the unhandled-frame diagnostic for Input, not a snapshot. -/
theorem C11_streaming_classification_witness :
    (script_input_cut.recv 0).result = 0 ∧ 4 ≤ min 64 (script_input_cut.recv 0).data.length ∧
    frame_events (input_body script_input_cut 0x81 [] 0 State.start).st.trace =
      [.other_packet "Input" 0x20] ∧
    (input_body script_input_cut 0x81 [] 0 State.start).brk = false :=
  have h := C11_streaming_classification script_input_cut 0x81 [] 0 State.start rfl (by decide)
  ⟨rfl, by decide, h.1.trans (by decide), h.2.2.2.2.1⟩

/-! ### The handshake as a function of the script -/

theorem announce_reply_projections (o : Byte) (a : InAnswer) :
    transport_calls (announce_reply o a) = announce_reply o a ∧
    receive_count (announce_reply o a) = 0 ∧
    sent_frames (announce_reply o a) =
      (if is_announce a then [ack_packet (a.data.getD 2 0)] else []) := by
  unfold announce_reply
  split_ifs <;> exact ⟨rfl, rfl, rfl⟩

theorem not_announce_of_timeout (a : InAnswer) (h : a.result = LIBUSB_ERROR_TIMEOUT) :
    is_announce a = false :=
  decide_eq_false (fun h2 => by rw [h] at h2; exact absurd h2.1 (by decide))

/-- The transport calls of the handshake loop are those the script determines. -/
theorem init_loop_exact (t : Transport) (i o : Byte) (fuel : Nat) :
    ∀ (attempt : Nat) (buffer : List Byte) (st : State), attempt + fuel ≤ 5 →
      transport_calls (init_loop t i o fuel attempt buffer st).trace =
        transport_calls st.trace ++ handshake_calls t i o fuel st.recvs := by
  induction fuel with
  | zero => intro attempt buffer st _; simp [init_loop, handshake_calls]
  | succ fuel ih =>
    intro attempt buffer st h
    have ha : attempt < 5 := by omega
    obtain ⟨_, hr, _, _, hc⟩ := init_body_spec t i o attempt buffer st
    have hc2 : transport_calls (init_body t i o attempt buffer st).st.trace =
        transport_calls st.trace ++ .transfer_in i 64 2000 :: announce_reply o (t.recv st.recvs) :=
      hc
    by_cases hto : (t.recv st.recvs).result = LIBUSB_ERROR_TIMEOUT
    · rw [init_loop_break t i o fuel attempt buffer st ha hto, hc2]
      simp [handshake_calls, hto]
    · rw [init_loop_continue t i o fuel attempt buffer st ha hto,
        ih (attempt + 1) _ _ (by omega), hc2, hr]
      simp [handshake_calls, hto]

/-- What the script-determined calls of the handshake loop contain: at most `n` receives, at
least one when `n > 0`, none after a timeout, fewer than `n` only after a timeout; and at most as
many sends as receives, each an Acknowledge frame. -/
theorem handshake_calls_count (t : Transport) (i o : Byte) (n : Nat) :
    ∀ idx : Nat,
      receive_count (handshake_calls t i o n idx) ≤ n ∧
      (0 < n → 1 ≤ receive_count (handshake_calls t i o n idx)) ∧
      (∀ j, j + 1 < receive_count (handshake_calls t i o n idx) →
        (t.recv (idx + j)).result ≠ LIBUSB_ERROR_TIMEOUT) ∧
      (receive_count (handshake_calls t i o n idx) < n →
        (t.recv (idx + (receive_count (handshake_calls t i o n idx) - 1))).result =
          LIBUSB_ERROR_TIMEOUT) ∧
      (sent_frames (handshake_calls t i o n idx)).length ≤
        receive_count (handshake_calls t i o n idx) ∧
      ∀ f ∈ sent_frames (handshake_calls t i o n idx), ∃ s, f = ack_packet s := by
  induction n with
  | zero => intro idx; simp [handshake_calls]
  | succ n ih =>
    intro idx
    obtain ⟨_, p2, p3⟩ := announce_reply_projections o (t.recv idx)
    by_cases hto : (t.recv idx).result = LIBUSB_ERROR_TIMEOUT
    · have hc : receive_count (handshake_calls t i o (n + 1) idx) = 1 := by
        simp [handshake_calls, hto, p2]
      have hs : sent_frames (handshake_calls t i o (n + 1) idx) = [] := by
        simp [handshake_calls, hto, p3, not_announce_of_timeout _ hto]
      rw [hc, hs]
      refine ⟨by omega, fun _ => le_refl 1, fun j hj => by omega, fun _ => hto, by simp,
        by simp⟩
    · obtain ⟨q1, q2, q3, q4, q5, q6⟩ := ih (idx + 1)
      have hc : receive_count (handshake_calls t i o (n + 1) idx) =
          receive_count (handshake_calls t i o n (idx + 1)) + 1 := by
        simp [handshake_calls, hto, p2]
      have hs : sent_frames (handshake_calls t i o (n + 1) idx) =
          (if is_announce (t.recv idx) then [ack_packet ((t.recv idx).data.getD 2 0)] else []) ++
            sent_frames (handshake_calls t i o n (idx + 1)) := by
        simp [handshake_calls, hto, p3]
      rw [hc, hs]
      refine ⟨by omega, fun _ => by omega, ?_, ?_, ?_, ?_⟩
      · intro j hj
        cases j with
        | zero => exact hto
        | succ j =>
          have := q3 j (by omega)
          rwa [Nat.add_assoc, Nat.add_comm 1 j] at this
      · intro hlt
        have hn : 0 < n := by omega
        have h1 := q2 hn
        have := q4 (by omega)
        have e : idx + (receive_count (handshake_calls t i o n (idx + 1)) + 1 - 1) =
            idx + 1 + (receive_count (handshake_calls t i o n (idx + 1)) - 1) := by omega
        rwa [e]
      · rw [List.length_append]
        split_ifs <;> simp <;> omega
      · intro f hf
        rcases List.mem_append.1 hf with hf | hf
        · split_ifs at hf
          · exact ⟨_, List.mem_singleton.1 hf⟩
          · exact absurd hf (List.not_mem_nil f)
        · exact q6 f hf

theorem first_answers_succ (t : Transport) (idx n : Nat) :
    first_answers t idx (n + 1) = t.recv idx :: first_answers t (idx + 1) n := by
  unfold first_answers
  rw [List.range_succ_eq_map, List.map_cons, List.map_map]
  refine congrArg₂ List.cons rfl (List.map_congr_left fun j _ => ?_)
  show t.recv (idx + (j + 1)) = t.recv (idx + 1 + j)
  rw [Nat.add_assoc, Nat.add_comm 1 j]

/-- The frames sent by the script-determined calls of the handshake loop are the Acknowledge
frames for the Announce frames among the first `n` answers and before the first timeout. -/
theorem handshake_calls_sent (t : Transport) (i o : Byte) (n : Nat) :
    ∀ idx : Nat, sent_frames (handshake_calls t i o n idx) =
      announce_acks (before_timeout (first_answers t idx n)) := by
  induction n with
  | zero => intro idx; rfl
  | succ n ih =>
    intro idx
    obtain ⟨_, _, p3⟩ := announce_reply_projections o (t.recv idx)
    rw [first_answers_succ]
    by_cases hto : (t.recv idx).result = LIBUSB_ERROR_TIMEOUT
    · simp [handshake_calls, hto, p3, not_announce_of_timeout _ hto, before_timeout,
        announce_acks]
    · have hs : sent_frames (handshake_calls t i o (n + 1) idx) =
          (if is_announce (t.recv idx) then [ack_packet ((t.recv idx).data.getD 2 0)] else []) ++
            sent_frames (handshake_calls t i o n (idx + 1)) := by
        simp [handshake_calls, hto, p3]
      have hb : before_timeout (t.recv idx :: first_answers t (idx + 1) n) =
          t.recv idx :: before_timeout (first_answers t (idx + 1) n) := by
        simp [before_timeout, hto]
      rw [hs, hb, ih (idx + 1)]
      unfold announce_acks
      by_cases ha : is_announce (t.recv idx) = true
      · simp [ha]
      · simp [ha]

/-- The transport calls of `initialize_controller` are those the script determines for five
attempts, followed by the send of the Power-on frame. -/
theorem initialize_controller_exact (t : Transport) (i o : Byte) (buffer : List Byte)
    (st : State) :
    transport_calls (initialize_controller t i o buffer st).2.trace =
      transport_calls st.trace ++ handshake_calls t i o 5 st.recvs ++
        [.transfer_out o power_on 1000] := by
  rw [(initialize_controller_calls t i o buffer st).2,
    init_loop_exact t i o 5 0 buffer (st.print .init_banner) (by decide)]
  simp

theorem transport_calls_handshake (t : Transport) (i o : Byte) (n : Nat) :
    ∀ idx : Nat, transport_calls (handshake_calls t i o n idx) = handshake_calls t i o n idx := by
  induction n with
  | zero => intro idx; rfl
  | succ n ih =>
    intro idx
    by_cases hto : (t.recv idx).result = LIBUSB_ERROR_TIMEOUT
    · simp [handshake_calls, hto, (announce_reply_projections o (t.recv idx)).1]
    · simp [handshake_calls, hto, (announce_reply_projections o (t.recv idx)).1, ih (idx + 1)]

theorem ack_packet_ne_power_on (s : Byte) : ack_packet s ≠ power_on := by
  intro h
  have := congrArg List.length h
  simp [ack_packet, power_on] at this

/-- C12: for every transport script (every sequence of receive results, every outcome of the
sends), `initialize_controller` returns 0 and makes c receives with 1 <= c <= 5; no receive
before the last one timed out, and fewer than 5 are made only when the last one timed out. Its
transport calls end with the send of the Power-on frame; the frames sent before it are
Acknowledge frames, at most c (so at most 5) of them, and none of them is the Power-on frame, so
exactly one Power-on frame is sent and it is the last frame. -/
theorem C12_handshake_bounded (t : Transport) (in_endpoint out_endpoint : Byte)
    (buffer : List Byte) (st : State) :
    (initialize_controller t in_endpoint out_endpoint buffer st).1 = 0 ∧
    ∃ (c : Nat) (acks : List (List Byte)) (calls : List Event),
      receive_count (initialize_controller t in_endpoint out_endpoint buffer st).2.trace =
        receive_count st.trace + c ∧
      1 ≤ c ∧ c ≤ 5 ∧
      (∀ j, j + 1 < c → (t.recv (st.recvs + j)).result ≠ LIBUSB_ERROR_TIMEOUT) ∧
      (c < 5 → (t.recv (st.recvs + (c - 1))).result = LIBUSB_ERROR_TIMEOUT) ∧
      transport_calls (initialize_controller t in_endpoint out_endpoint buffer st).2.trace =
        transport_calls st.trace ++ calls ++ [.transfer_out out_endpoint power_on 1000] ∧
      receive_count calls = c ∧ sent_frames calls = acks ∧
      sent_frames (initialize_controller t in_endpoint out_endpoint buffer st).2.trace =
        sent_frames st.trace ++ acks ++ [power_on] ∧
      acks.length ≤ c ∧ acks.length ≤ 5 ∧
      (∀ f ∈ acks, ∃ s, f = ack_packet s) ∧
      power_on ∉ acks ∧
      (acks ++ [power_on]).count power_on = 1 := by
  obtain ⟨q1, q2, q3, q4, q5, q6⟩ :=
    handshake_calls_count t in_endpoint out_endpoint 5 st.recvs
  have hx := initialize_controller_exact t in_endpoint out_endpoint buffer st
  have hnot : power_on ∉ sent_frames (handshake_calls t in_endpoint out_endpoint 5 st.recvs) := by
    intro hm
    obtain ⟨s, hs⟩ := q6 _ hm
    exact ack_packet_ne_power_on s hs.symm
  refine ⟨rfl, receive_count (handshake_calls t in_endpoint out_endpoint 5 st.recvs),
    sent_frames (handshake_calls t in_endpoint out_endpoint 5 st.recvs),
    handshake_calls t in_endpoint out_endpoint 5 st.recvs, ?_, q2 (by decide), q1, q3, q4, hx,
    rfl, rfl, ?_, q5, le_trans q5 q1, q6, hnot, ?_⟩
  · rw [← receive_count_transport_calls, hx, receive_count_append, receive_count_append,
      receive_count_transport_calls]
    rfl
  · rw [← sent_frames_transport_calls, hx, sent_frames_append, sent_frames_append,
      sent_frames_transport_calls]
    rfl
  · rw [List.count_append, List.count_eq_zero_of_not_mem hnot]
    simp

/-- C13: for every transport script, the frames `initialize_controller` sends are the
Acknowledge frames for the Announce frames (received with result 0, at least 4 bytes, byte 0 =
0x02) among the answers to the first 5 receives and before the first timeout, one per frame and
in the same order, each carrying byte 2 of its frame as sequence, followed by the Power-on frame.
A received frame of at least 4 bytes with any other command causes no send, does not break the
loop, and the loop goes on to the next attempt. -/
theorem C13_acks_follow_announces (t : Transport) (in_endpoint out_endpoint : Byte)
    (buffer : List Byte) (st : State) :
    sent_frames (initialize_controller t in_endpoint out_endpoint buffer st).2.trace =
      sent_frames st.trace ++ expected_acks t st.recvs ++ [power_on] ∧
    expected_acks t st.recvs =
      (((before_timeout (first_answers t st.recvs 5)).filter is_announce).map
        (fun a => ack_packet (a.data.getD 2 0))) ∧
    first_answers t st.recvs 5 =
      [t.recv st.recvs, t.recv (st.recvs + 1), t.recv (st.recvs + 2), t.recv (st.recvs + 3),
        t.recv (st.recvs + 4)] ∧
    (∀ a : InAnswer, is_announce a = true ↔
      a.result = 0 ∧ 4 ≤ a.data.length ∧ a.data.getD 0 0 = 0x02) ∧
    (∀ a ∈ before_timeout (first_answers t st.recvs 5), a.result ≠ LIBUSB_ERROR_TIMEOUT) ∧
    (∀ s : Byte, GipHeader.read (ack_packet s) =
      { command := GIP_CMD_ACKNOWLEDGE, options := 0x20, sequence := s, length := 9 }) ∧
    ∀ (attempt : Nat) (buffer2 : List Byte) (st2 : State),
      (t.recv st2.recvs).result = 0 → 4 ≤ (t.recv st2.recvs).data.length →
      (t.recv st2.recvs).data.getD 0 0 ≠ 0x02 →
      sent_frames (init_body t in_endpoint out_endpoint attempt buffer2 st2).st.trace =
        sent_frames st2.trace ∧
      (init_body t in_endpoint out_endpoint attempt buffer2 st2).brk = false ∧
      ∀ fuel, attempt < 5 →
        init_loop t in_endpoint out_endpoint (fuel + 1) attempt buffer2 st2 =
          init_loop t in_endpoint out_endpoint fuel (attempt + 1)
            (init_body t in_endpoint out_endpoint attempt buffer2 st2).buffer
            (init_body t in_endpoint out_endpoint attempt buffer2 st2).st := by
  refine ⟨?_, rfl, rfl, fun a => ?_, fun a ha => ?_, fun s => rfl, ?_⟩
  · rw [← sent_frames_transport_calls,
      initialize_controller_exact t in_endpoint out_endpoint buffer st, sent_frames_append,
      sent_frames_append, sent_frames_transport_calls, handshake_calls_sent]
    rfl
  · unfold is_announce
    exact decide_eq_true_iff
  · have := List.mem_takeWhile_imp ha
    exact of_decide_eq_true this
  · intro attempt buffer2 st2 h0 _ hcmd
    have hne : (t.recv st2.recvs).result ≠ LIBUSB_ERROR_TIMEOUT := by rw [h0]; decide
    have hna : is_announce (t.recv st2.recvs) = false := decide_eq_false (fun h => hcmd h.2.2)
    obtain ⟨hb, _, _, _, hc⟩ := init_body_spec t in_endpoint out_endpoint attempt buffer2 st2
    rw [hna] at hc
    rw [decide_eq_false hne] at hb
    refine ⟨?_, hb, fun fuel ha =>
      init_loop_continue t in_endpoint out_endpoint fuel attempt buffer2 st2 ha hne⟩
    rw [← sent_frames_transport_calls, hc, sent_frames_append, sent_frames_transport_calls]
    simp

/-! ### The HID report descriptor and `GamepadReport` -/

/-- A successful parse accounts for every byte: the items, each with its first byte and its data,
take up exactly the bytes parsed. -/
theorem parse_short_items_length (fuel : Nat) :
    ∀ (bytes : List Byte) (items : List HidItem), parse_short_items fuel bytes = some items →
      (items.map (fun it => 1 + it.data.length)).sum = bytes.length := by
  induction fuel with
  | zero =>
    intro bytes items h
    cases bytes with
    | nil => simp [parse_short_items] at h; subst h; rfl
    | cons b rest => simp [parse_short_items] at h
  | succ fuel ih =>
    intro bytes items h
    cases bytes with
    | nil => simp [parse_short_items] at h; subst h; rfl
    | cons b rest =>
      unfold parse_short_items at h
      split_ifs at h with h1 h2
      cases hp : parse_short_items fuel (rest.drop (hid_data_size b)) with
      | none => rw [hp] at h; simp at h
      | some items2 =>
        rw [hp] at h
        simp only [Option.some.injEq] at h
        subst h
        have := ih _ _ hp
        simp only [List.map_cons, List.sum_cons, this, List.length_take, List.length_drop,
          List.length_cons]
        omega


set_option maxRecDepth 100000 in
/-- The descriptor parses into short items that take up its 83 bytes, with one Collection, closed
by one End Collection, which is the last item. -/
theorem gamepad_descriptor_parses :
    parse_descriptor gamepad_hid_descriptor = some gamepad_items ∧
    (gamepad_items.map (fun it => 1 + it.data.length)).sum = gamepad_hid_descriptor.length ∧
    gamepad_items.length = 39 ∧
    (gamepad_items.filter HidItem.is_collection).length = 1 ∧
    (gamepad_items.filter HidItem.is_end_collection).length = 1 ∧
    collection_depth 0 gamepad_items = some 0 ∧
    gamepad_items.getLast? = some { type := 0, tag := 12, data := [] } := by
  decide

set_option maxRecDepth 100000 in
/-- The Input declarations of the descriptor. -/
theorem gamepad_fields_eq :
    gamepad_fields = input_fields ItemState.empty gamepad_items ∧
    gamepad_fields =
      [ { usage_page := 0x09, usages := [], usage_minimum := some 1, usage_maximum := some 16,
          logical_minimum := 0, logical_maximum := 1, report_size := 1, report_count := 16,
          flags := 2 },
        { usage_page := 0x01, usages := [0x32], usage_minimum := none, usage_maximum := none,
          logical_minimum := 0, logical_maximum := 255, report_size := 8, report_count := 1,
          flags := 2 },
        { usage_page := 0x01, usages := [0x35], usage_minimum := none, usage_maximum := none,
          logical_minimum := 0, logical_maximum := 255, report_size := 8, report_count := 1,
          flags := 2 },
        { usage_page := 0x01, usages := [0x30, 0x31], usage_minimum := none,
          usage_maximum := none, logical_minimum := -32768, logical_maximum := 32767,
          report_size := 16, report_count := 2, flags := 2 },
        { usage_page := 0x01, usages := [0x33, 0x34], usage_minimum := none,
          usage_maximum := none, logical_minimum := -32768, logical_maximum := 32767,
          report_size := 16, report_count := 2, flags := 2 } ] := by
  decide

set_option maxRecDepth 100000 in
/-- The report of the descriptor and the struct: sizes, widths, order and value ranges. -/
theorem gamepad_report_matches :
    report_bits gamepad_fields = 96 ∧
    GamepadReport.sizeof = 12 ∧
    report_bits gamepad_fields = 8 * GamepadReport.sizeof ∧
    GamepadReport.members.map (fun m => m.2.bits) = [16, 8, 8, 16, 16, 16, 16] ∧
    field_widths gamepad_fields = List.replicate 16 1 ++ [8, 8, 16, 16, 16, 16] ∧
    GamepadReport.members.map (fun m => m.2.bits) =
      ((field_widths gamepad_fields).take 16).sum :: (field_widths gamepad_fields).drop 16 ∧
    GamepadReport.bit_offsets 0 GamepadReport.members = [0, 16, 24, 32, 48, 64, 80] ∧
    (GamepadReport.members.tail.map (fun m => (m.2.least, m.2.greatest))) =
      (gamepad_fields.tail.flatMap
        (fun f => List.replicate f.report_count (f.logical_minimum, f.logical_maximum))) := by
  decide

/-- C14: `gamepad_hid_descriptor` parses as a sequence of HID short items that takes up its
bytes exactly, with one Collection closed by one End Collection (the last item). Its Input items
declare, in order: 16 fields of 1 bit (Button page, usages 1..16, logical 0..1); 1 field of 8 bits
(usage Z, logical 0..255); 1 field of 8 bits (usage Rz, 0..255); 2 fields of 16 bits (usages X then
Y, -32768..32767); 2 fields of 16 bits (usages Rx then Ry, -32768..32767). The report has 96 bits,
the 12 bytes of the packed `GamepadReport`, whose members (buttons, left_trigger, right_trigger,
left_stick_x, left_stick_y, right_stick_x, right_stick_y) have the same order and widths, the 16
button bits making up the 16-bit member `buttons`, and the value ranges of the member types. -/
theorem C14_descriptor_matches_report :
    (parse_descriptor gamepad_hid_descriptor = some gamepad_items ∧
      (gamepad_items.map (fun it => 1 + it.data.length)).sum = gamepad_hid_descriptor.length ∧
      gamepad_items.length = 39 ∧
      (gamepad_items.filter HidItem.is_collection).length = 1 ∧
      (gamepad_items.filter HidItem.is_end_collection).length = 1 ∧
      collection_depth 0 gamepad_items = some 0 ∧
      gamepad_items.getLast? = some { type := 0, tag := 12, data := [] }) ∧
    (gamepad_fields = input_fields ItemState.empty gamepad_items ∧
      gamepad_fields =
      [ { usage_page := 0x09, usages := [], usage_minimum := some 1, usage_maximum := some 16,
          logical_minimum := 0, logical_maximum := 1, report_size := 1, report_count := 16,
          flags := 2 },
        { usage_page := 0x01, usages := [0x32], usage_minimum := none, usage_maximum := none,
          logical_minimum := 0, logical_maximum := 255, report_size := 8, report_count := 1,
          flags := 2 },
        { usage_page := 0x01, usages := [0x35], usage_minimum := none, usage_maximum := none,
          logical_minimum := 0, logical_maximum := 255, report_size := 8, report_count := 1,
          flags := 2 },
        { usage_page := 0x01, usages := [0x30, 0x31], usage_minimum := none,
          usage_maximum := none, logical_minimum := -32768, logical_maximum := 32767,
          report_size := 16, report_count := 2, flags := 2 },
        { usage_page := 0x01, usages := [0x33, 0x34], usage_minimum := none,
          usage_maximum := none, logical_minimum := -32768, logical_maximum := 32767,
          report_size := 16, report_count := 2, flags := 2 } ]) ∧
    (report_bits gamepad_fields = 96 ∧
      GamepadReport.sizeof = 12 ∧
      report_bits gamepad_fields = 8 * GamepadReport.sizeof ∧
      GamepadReport.members.map (fun m => m.2.bits) = [16, 8, 8, 16, 16, 16, 16] ∧
      field_widths gamepad_fields = List.replicate 16 1 ++ [8, 8, 16, 16, 16, 16] ∧
      GamepadReport.members.map (fun m => m.2.bits) =
        ((field_widths gamepad_fields).take 16).sum :: (field_widths gamepad_fields).drop 16 ∧
      GamepadReport.bit_offsets 0 GamepadReport.members = [0, 16, 24, 32, 48, 64, 80] ∧
      (GamepadReport.members.tail.map (fun m => (m.2.least, m.2.greatest))) =
        (gamepad_fields.tail.flatMap
          (fun f => List.replicate f.report_count (f.logical_minimum, f.logical_maximum)))) :=
  ⟨gamepad_descriptor_parses, gamepad_fields_eq, gamepad_report_matches⟩

end Gip
